import Mathlib

/-!
Verification of the MobileAgent patrol core: a shallow embedding of
`src/state_tracker.py`, `src/patrol.py`, `src/platform_adapter.py` and the
screen-hash part of `src/executor.py`, together with theorems settling the
frozen claims about the state tracker, the patrol state machine and the
screen/post digests.

Modelling conventions:
* Python `float` timestamps are modelled as `ℚ` (only comparison and
  subtraction are used by the code under study).
* `hashlib.md5(s.encode()).hexdigest()[:k]` is external library code; it is
  modelled as an explicit function parameter `d : String → String`
  (an opaque digest).  Statements that need distinct digests for distinct
  inputs carry a `Function.Injective d` hypothesis, which the truncatedMD5
  scheme is assumed to satisfy on the inputs in play (the repository itself
  relies on the absence of collisions).  Statements about equal digests hold
  for every `d`, hence for the real MD5.
* Python dicts are modelled as association lists with insertion-order
  semantics (`dictInsert` overwrites in place, else appends), matching
  CPython's ordered dicts.
* `str.lower` is modelled with `Char.toLower` (the strings exercised here are
  ASCII or CJK, where the two agree).
-/

namespace MobileAgent

/-! ## String helpers (Python `in`, `lower`, slicing) -/

/-- `charsStartWith n h` : `n` is an initial segment of `h`. -/
def charsStartWith : List Char → List Char → Bool
  | [], _ => true
  | _ :: _, [] => false
  | a :: as, b :: bs => a == b && charsStartWith as bs

/-- `charsContain n h` : `n` occurs contiguously inside `h`. -/
def charsContain (needle : List Char) : List Char → Bool
  | [] => needle.isEmpty
  | b :: bs => charsStartWith needle (b :: bs) || charsContain needle bs

/-- Python `needle in haystack` on strings. -/
def strContains (haystack needle : String) : Bool :=
  charsContain needle.toList haystack.toList

/-- Python `s.lower()` (ASCII/CJK fragment), mapping `Char.toLower` over
the characters. -/
def lowerStr (s : String) : String := ⟨s.data.map Char.toLower⟩

/-- Python `s[:n]`. -/
def strTake (s : String) (n : Nat) : String := ⟨s.toList.take n⟩

/-- Decimal digit characters of a natural number, most significant first
(`fuel`-driven so that it reduces computationally; `fuel > log10 n`
suffices). -/
def pyNatRepAux : Nat → Nat → List Char
  | 0, _ => []
  | fuel + 1, n =>
    if n < 10 then [Nat.digitChar n]
    else pyNatRepAux fuel (n / 10) ++ [Nat.digitChar (n % 10)]

/-- Python `str(n)` for a natural number. -/
def pyStrNat (n : Nat) : String := ⟨pyNatRepAux (n + 1) n⟩

/-- Python `str(i)` for an integer (a leading `-` for negatives). -/
def pyStrInt (i : Int) : String :=
  if i < 0 then "-" ++ pyStrNat i.natAbs else pyStrNat i.toNat

/-! ## Python dict as insertion-ordered association list -/

/-- Python `dct[k] = v`: overwrite in place if the key exists, else append. -/
def dictInsert {α β : Type} [DecidableEq α] (k : α) (v : β) :
    List (α × β) → List (α × β)
  | [] => [(k, v)]
  | (k', v') :: t => if k' = k then (k, v) :: t else (k', v') :: dictInsert k v t

/-- Python `k in dct`. -/
def dictMem {α β : Type} [DecidableEq α] (k : α) (l : List (α × β)) : Bool :=
  l.any (fun p => p.1 = k)

/-- Python `dct.get k`. -/
def dictGet {α β : Type} [DecidableEq α] (k : α) (l : List (α × β)) : Option β :=
  (l.find? (fun p => p.1 = k)).map Prod.snd

/-- Python `{**a, **b}`: items of `a`, then each item of `b` set in order. -/
def dictMerge {α β : Type} [DecidableEq α]
    (a b : List (α × β)) : List (α × β) :=
  b.foldl (fun acc p => dictInsert p.1 p.2 acc) a

/-! ## Navigation states (`state_tracker.py`, class `NavigationState`) -/

/-- `NavigationState` enumeration from `state_tracker.py`. -/
inductive NavigationState where
  | unknown | homeFeed | searchInput | searchResults | postDetail
  | comments | profile | settings | popup | loginWall | error
deriving DecidableEq, Repr

/-- The Python enum's `.value` string. -/
def NavigationState.value : NavigationState → String
  | .unknown => "unknown"
  | .homeFeed => "home_feed"
  | .searchInput => "search_input"
  | .searchResults => "search_results"
  | .postDetail => "post_detail"
  | .comments => "comments"
  | .profile => "profile"
  | .settings => "settings"
  | .popup => "popup"
  | .loginWall => "login_wall"
  | .error => "error"

/-- `NavigationState(value)` — the enum constructor, `none` on an unknown
value (Python raises `ValueError` there). -/
def NavigationState.ofValue : String → Option NavigationState
  | "unknown" => some .unknown
  | "home_feed" => some .homeFeed
  | "search_input" => some .searchInput
  | "search_results" => some .searchResults
  | "post_detail" => some .postDetail
  | "comments" => some .comments
  | "profile" => some .profile
  | "settings" => some .settings
  | "popup" => some .popup
  | "login_wall" => some .loginWall
  | "error" => some .error
  | _ => none

/-- `StateSignal` dataclass from `state_tracker.py`. -/
structure StateSignal where
  texts : List String := []
  element_types : List String := []
  identifiers : List String := []
  exclude_texts : List String := []
deriving DecidableEq, Repr

/-- The `STATE_SIGNALS` table from `state_tracker.py`, as an association
list platform → (state → signal) preserving the source's key order. -/
def STATE_SIGNALS : List (String × List (NavigationState × StateSignal)) :=
  [ ("threads",
     [ (.searchInput,
        { texts := ["Search", "搜尋"], element_types := ["EditText"] }),
       (.searchResults,
        { texts := ["Top", "Recent", "Accounts", "熱門", "最新", "帳號"],
          exclude_texts := ["Search", "搜尋"] }),
       (.postDetail,
        { texts := ["Reply", "回覆", "Like", "讚"],
          identifiers := ["thread_view", "post_detail"] }),
       (.comments, { texts := ["replies", "則回覆"] }),
       (.homeFeed,
        { element_types := ["RecyclerView"],
          identifiers := ["feed", "timeline"] }) ]),
    ("instagram",
     [ (.searchInput,
        { texts := ["Search", "搜尋"], element_types := ["EditText"] }),
       (.searchResults,
        { texts := ["Accounts", "Tags", "Places", "帳號", "標籤", "地點"] }),
       (.postDetail,
        { texts := ["Like", "Comment", "Share", "讚", "留言", "分享"],
          identifiers := ["media_container"] }),
       (.profile,
        { texts := ["posts", "followers", "following", "貼文", "粉絲", "追蹤中"] }) ]),
    ("tiktok",
     [ (.searchInput,
        { texts := ["Search", "搜尋"], element_types := ["EditText"] }),
       (.searchResults,
        { texts := ["Top", "Users", "Videos", "Sounds", "熱門", "用戶", "影片"] }),
       (.postDetail, { identifiers := ["video_container", "player"] }) ]),
    ("x",
     [ (.searchInput,
        { texts := ["Search", "搜尋"], element_types := ["EditText"] }),
       (.searchResults,
        { texts := ["Top", "Latest", "People", "Photos", "Videos", "熱門", "最新"] }),
       (.postDetail,
        { texts := ["Reply", "Repost", "Like", "回覆", "轉推", "喜歡"] }) ]),
    ("facebook",
     [ (.searchInput,
        { texts := ["Search", "搜尋"], element_types := ["EditText"] }),
       (.searchResults,
        { texts := ["All", "Posts", "People", "Photos", "全部", "貼文", "用戶"] }),
       (.postDetail,
        { texts := ["Like", "Comment", "Share", "讚", "留言", "分享"] }) ]),
    ("youtube",
     [ (.searchInput,
        { element_types := ["EditText"], identifiers := ["search_edit_text"] }),
       (.searchResults,
        { texts := ["Filter", "篩選"], identifiers := ["results"] }),
       (.postDetail, { identifiers := ["player_view", "video_player"] }),
       (.comments,
        { texts := ["comments", "則留言", "Add a comment", "新增留言"] }) ]),
    ("default",
     [ (.searchInput,
        { texts := ["Search", "搜尋", "検索"],
          element_types := ["EditText", "TextField"] }),
       (.searchResults,
        { texts := ["Top", "Recent", "All", "熱門", "最新", "全部"] }),
       (.postDetail,
        { texts := ["Like", "Comment", "Share", "Reply", "讚", "留言", "分享", "回覆"] }),
       (.loginWall,
        { texts := ["Log in", "Sign in", "登入", "Sign up", "註冊"] }),
       (.popup,
        { texts := ["OK", "Cancel", "Allow", "Deny", "確定", "取消", "允許", "拒絕"],
          element_types := ["AlertDialog", "Dialog"] }) ]) ]

/-! ## UI elements (`executor.py`, class `Element`) -/

/-- Normalized element bounds `{x, y, width, height}`. -/
structure Bounds where
  x : Int
  y : Int
  width : Int
  height : Int
deriving DecidableEq, Repr

/-- `Element` dataclass from `executor.py`.  `bounds` is `none` for the empty
Python dict `{}`; the `raw` back-reference to the source dict is omitted (it
is never read by the code under study). -/
structure Element where
  text : String := ""
  content_desc : String := ""
  element_type : String := ""
  identifier : String := ""
  bounds : Option Bounds := none
  clickable : Bool := false
  scrollable : Bool := false
  focusable : Bool := false
  enabled : Bool := true
deriving DecidableEq, Repr

/-! ## State detection (`StateTracker.detect_state`) -/

/-- The lowered texts collected by `detect_state`: `el.text` and
`el.content_desc` for each element where they are non-empty (Python set
membership is only consumed through `any(...)`, so a list is an equivalent
model). -/
def elementTexts (elements : List Element) : List String :=
  elements.foldr (fun el acc =>
    (if el.text ≠ "" then [lowerStr el.text] else []) ++
    (if el.content_desc ≠ "" then [lowerStr el.content_desc] else []) ++ acc) []

/-- The element types collected by `detect_state` (not lowercased). -/
def elementTypes (elements : List Element) : List String :=
  elements.foldr (fun el acc =>
    (if el.element_type ≠ "" then [el.element_type] else []) ++ acc) []

/-- The lowered identifiers collected by `detect_state`. -/
def elementIds (elements : List Element) : List String :=
  elements.foldr (fun el acc =>
    (if el.identifier ≠ "" then [lowerStr el.identifier] else []) ++ acc) []

/-- `StateTracker._calculate_signal_score`: +2 per matched text, +1 per
matched element type, +2 per matched identifier, −3 per matched exclusion,
clamped below at 0. -/
def calculate_signal_score (signal : StateSignal)
    (texts types ids : List String) : Int :=
  let score : Int := 0
  let score := signal.texts.foldl
    (fun sc p => if texts.any (fun t => strContains t (lowerStr p)) then sc + 2 else sc) score
  let score := signal.element_types.foldl
    (fun sc p => if types.any (fun t => strContains t p) then sc + 1 else sc) score
  let score := signal.identifiers.foldl
    (fun sc p => if ids.any (fun i => strContains i (lowerStr p)) then sc + 2 else sc) score
  let score := signal.exclude_texts.foldl
    (fun sc p => if texts.any (fun t => strContains t (lowerStr p)) then sc - 3 else sc) score
  max 0 score

/-- The merged signal table used by `detect_state` for a platform:
`{**default_signals, **platform_signals}`. -/
def mergedSignals (platform : String) : List (NavigationState × StateSignal) :=
  let platform_signals := (dictGet platform STATE_SIGNALS).getD []
  let default_signals := (dictGet "default" STATE_SIGNALS).getD []
  dictMerge default_signals platform_signals

/-- One iteration of `detect_state`'s best-candidate loop: replace the best
match only on a strictly higher score. -/
def bestStep (texts types ids : List String)
    (best : NavigationState × Int) (p : NavigationState × StateSignal) :
    NavigationState × Int :=
  let score := calculate_signal_score p.2 texts types ids
  if score > best.2 then (p.1, score) else best

/-- The best-candidate fold of `detect_state`, starting at `(UNKNOWN, 0)`. -/
def bestSignal (signals : List (NavigationState × StateSignal))
    (texts types ids : List String) : NavigationState × Int :=
  signals.foldl (bestStep texts types ids) (NavigationState.unknown, 0)

/-- `StateTracker.detect_state`, as a pure function of the platform and the
screen elements (the method additionally stores the result in
`current_state`; see `StateTracker.detectState`). -/
def detectStateCore (platform : String) (elements : List Element) :
    NavigationState :=
  (bestSignal (mergedSignals platform)
    (elementTexts elements) (elementTypes elements) (elementIds elements)).1

/-! ## Visited items and post ids (`state_tracker.py`) -/

/-- `VisitedItem` dataclass.  `data` holds the free-form `**extra` kwargs
(string-valued at every call site of the code under study). -/
structure VisitedItem where
  item_id : String
  title : String := ""
  author : String := ""
  platform : String := ""
  timestamp : ℚ := 0
  data : List (String × String) := []
deriving DecidableEq, Repr

/-- `VisitedItem.from_post`: the item id is the digest `d` of
`f"{title}|{author}|{index}|{platform}"`; unrecognized keyword arguments
(`extra`) land in `data`.  `d` models
`hashlib.md5(s.encode()).hexdigest()[:16]`; `now` models `time.time()`. -/
def VisitedItem.from_post (d : String → String) (now : ℚ)
    (title : String := "") (author : String := "") (index : Int := 0)
    (platform : String := "") (extra : List (String × String) := []) :
    VisitedItem :=
  let hash_input := title ++ "|" ++ author ++ "|" ++ pyStrInt index ++ "|" ++ platform
  { item_id := d hash_input, title := title, author := author,
    platform := platform, timestamp := now, data := extra }

/-- `generate_post_id` from `state_tracker.py` (same digest scheme as
`VisitedItem.from_post`). -/
def generate_post_id (d : String → String) (title : String := "")
    (author : String := "") (index : Int := 0) (platform : String := "") :
    String :=
  d (title ++ "|" ++ author ++ "|" ++ pyStrInt index ++ "|" ++ platform)

/-! ## Navigation history and the tracker (`state_tracker.py`) -/

/-- `HistoryEntry` dataclass. -/
structure HistoryEntry where
  state : NavigationState
  screen_hash : String
  timestamp : ℚ
  data : List (String × String) := []
deriving DecidableEq, Repr

/-- The tracker's `stats` dict (fixed keys throughout the source). -/
structure TrackerStats where
  posts_visited : Nat := 0
  scrolls : Nat := 0
  back_navigations : Nat := 0
  errors : Nat := 0
  start_time : ℚ := 0
deriving DecidableEq, Repr

/-- In-memory state of `StateTracker`. -/
structure StateTracker where
  platform : String
  session_id : String
  current_state : NavigationState := .unknown
  history : List HistoryEntry := []
  visited : List (String × VisitedItem) := []
  stats : TrackerStats := {}
deriving DecidableEq, Repr

/-- `StateTracker.__init__` (fresh session: the `auto_load` branch is the
separate `load` below). -/
def StateTracker.init (platform session_id : String) (now : ℚ) : StateTracker :=
  { platform := lowerStr platform, session_id := session_id,
    stats := { start_time := now } }

/-- The keyword arguments accepted by `mark_visited`/`from_post`; anything
beyond title/author/index is collected in `extra`. -/
structure MarkKwargs where
  title : String := ""
  author : String := ""
  index : Int := 0
  extra : List (String × String) := []
deriving DecidableEq, Repr

/-- `StateTracker.mark_visited` with an explicit `VisitedItem`. -/
def StateTracker.markVisitedItem (tr : StateTracker) (item : VisitedItem) :
    StateTracker :=
  { tr with visited := dictInsert item.item_id item tr.visited,
            stats := { tr.stats with posts_visited := tr.stats.posts_visited + 1 } }

/-- `StateTracker.mark_visited` with `item=None`: builds the item from the
kwargs via `from_post` (with the tracker's platform) and records it.
Returns the updated tracker and the recorded item id. -/
def StateTracker.markVisited (d : String → String) (now : ℚ)
    (tr : StateTracker) (kw : MarkKwargs) : StateTracker × String :=
  let item := VisitedItem.from_post d now kw.title kw.author kw.index
    tr.platform kw.extra
  (tr.markVisitedItem item, item.item_id)

/-- `StateTracker.is_visited`: a (truthy) `item_id` is looked up directly;
otherwise the id is re-derived from the fields via `from_post` (the probe
item's timestamp does not enter the id, so `0` is passed for it). -/
def StateTracker.isVisited (d : String → String) (tr : StateTracker)
    (item_id : Option String := none) (title : Option String := none)
    (author : Option String := none) (index : Int := 0) : Bool :=
  match item_id with
  | some s =>
    if s ≠ "" then dictMem s tr.visited
    else dictMem (VisitedItem.from_post d 0 (title.getD "") (author.getD "")
      index tr.platform).item_id tr.visited
  | none => dictMem (VisitedItem.from_post d 0 (title.getD "") (author.getD "")
      index tr.platform).item_id tr.visited

/-- `StateTracker.get_visited_count`. -/
def StateTracker.getVisitedCount (tr : StateTracker) : Nat := tr.visited.length

/-- `StateTracker.push_history`: append an entry for the current state, then
keep only the most recent 50 entries. -/
def StateTracker.pushHistory (tr : StateTracker) (now : ℚ)
    (screen_hash : String) (dt : List (String × String) := []) : StateTracker :=
  let entry : HistoryEntry :=
    { state := tr.current_state, screen_hash := screen_hash,
      timestamp := now, data := dt }
  let h := tr.history ++ [entry]
  let h := if h.length > 50 then h.drop (h.length - 50) else h
  { tr with history := h }

/-- `StateTracker.pop_history`: remove and return the most recent entry
(counting a back navigation), or `none` on an empty stack. -/
def StateTracker.popHistory (tr : StateTracker) :
    Option HistoryEntry × StateTracker :=
  match tr.history.getLast? with
  | some e =>
    (some e,
     { tr with history := tr.history.dropLast,
               stats := { tr.stats with
                 back_navigations := tr.stats.back_navigations + 1 } })
  | none => (none, tr)

/-- `StateTracker.peek_history`. -/
def StateTracker.peekHistory (tr : StateTracker) : Option HistoryEntry :=
  tr.history.getLast?

/-- `StateTracker.record_scroll`. -/
def StateTracker.recordScroll (tr : StateTracker) : StateTracker :=
  { tr with stats := { tr.stats with scrolls := tr.stats.scrolls + 1 } }

/-- `StateTracker.record_error`. -/
def StateTracker.recordError (tr : StateTracker) : StateTracker :=
  { tr with stats := { tr.stats with errors := tr.stats.errors + 1 } }

/-- The dict returned by `StateTracker.get_stats` (a copy of `stats` plus
derived fields). -/
structure StatsView where
  posts_visited : Nat
  scrolls : Nat
  back_navigations : Nat
  errors : Nat
  start_time : ℚ
  duration : ℚ
  visited_count : Nat
  history_depth : Nat
deriving DecidableEq, Repr

/-- `StateTracker.get_stats`. -/
def StateTracker.getStats (tr : StateTracker) (now : ℚ) : StatsView :=
  { posts_visited := tr.stats.posts_visited, scrolls := tr.stats.scrolls,
    back_navigations := tr.stats.back_navigations, errors := tr.stats.errors,
    start_time := tr.stats.start_time,
    duration := now - tr.stats.start_time,
    visited_count := tr.visited.length, history_depth := tr.history.length }

/-- `StateTracker.detect_state` as the method: classify and store the result
in `current_state`. -/
def StateTracker.detectState (tr : StateTracker) (elements : List Element) :
    NavigationState × StateTracker :=
  let best := detectStateCore tr.platform elements
  (best, { tr with current_state := best })

/-! ## Persistence (`StateTracker.save` / `StateTracker.load`) -/

/-- A serialized history entry (`state` as the enum's value string). -/
structure HistoryEntryJson where
  state : String
  screen_hash : String
  timestamp : ℚ
  data : List (String × String) := []
deriving DecidableEq, Repr

/-- The JSON document written by `StateTracker.save` (visited items are
serialized field-by-field via `asdict`, which `load` inverts exactly, so
they are carried structurally). -/
structure SessionData where
  session_id : String
  platform : String
  current_state : String
  visited : List (String × VisitedItem)
  history : List HistoryEntryJson
  stats : TrackerStats
  saved_at : ℚ
deriving DecidableEq, Repr

/-- `StateTracker.save`. -/
def StateTracker.save (tr : StateTracker) (now : ℚ) : SessionData :=
  { session_id := tr.session_id, platform := tr.platform,
    current_state := tr.current_state.value,
    visited := tr.visited,
    history := tr.history.map (fun e =>
      { state := e.state.value, screen_hash := e.screen_hash,
        timestamp := e.timestamp, data := e.data }),
    stats := tr.stats, saved_at := now }

/-- `StateTracker.load`: restore platform, current state, visited map,
history and stats from a session document.  An unrecognized state value
raises `ValueError` in the source (caught, returning `False` there); it is
modelled as `none`. -/
def StateTracker.load (tr : StateTracker) (data : SessionData) :
    Option StateTracker := do
  let cs ← NavigationState.ofValue data.current_state
  let hist ← data.history.mapM (fun e =>
    (NavigationState.ofValue e.state).map (fun s =>
      ({ state := s, screen_hash := e.screen_hash,
         timestamp := e.timestamp, data := e.data } : HistoryEntry)))
  some { tr with platform := data.platform, current_state := cs,
                 visited := data.visited, history := hist,
                 stats := data.stats }

/-! ## Tracker session operations

The operations a patrol session performs on its tracker (everything the
patrol loop calls; the explicit deletion APIs `clear_visited`/`reset` and
mid-session `load` are not among them). -/

inductive TrackerOp where
  | mark (now : ℚ) (kw : MarkKwargs)
  | markItem (item : VisitedItem)
  | push (now : ℚ) (screen_hash : String) (dt : List (String × String))
  | pop
  | recordScroll
  | recordError
  | detect (elements : List Element)
  | saveOp
deriving Repr

/-- Apply one session operation to the tracker (`save` does not change the
in-memory state). -/
def applyOp (d : String → String) (tr : StateTracker) : TrackerOp → StateTracker
  | .mark now kw => (tr.markVisited d now kw).1
  | .markItem item => tr.markVisitedItem item
  | .push now h dt => tr.pushHistory now h dt
  | .pop => (tr.popHistory).2
  | .recordScroll => tr.recordScroll
  | .recordError => tr.recordError
  | .detect els => (tr.detectState els).2
  | .saveOp => tr

/-- Apply a sequence of session operations. -/
def applyOps (d : String → String) (tr : StateTracker)
    (ops : List TrackerOp) : StateTracker :=
  ops.foldl (applyOp d) tr

/-! ## Post cards (`platform_adapter.py`) -/

/-- `PostCard` dataclass from `platform_adapter.py`. -/
structure PostCard where
  author : String := ""
  author_id : String := ""
  text : String := ""
  text_preview : String := ""
  timestamp : String := ""
  likes : String := ""
  comments : String := ""
  shares : String := ""
  element : Option Element := none
  bounds : Option Bounds := none
  index : Int := 0
deriving DecidableEq, Repr

/-- `PostCard.unique_id`: digest of
`f"{author_id}|{text_preview[:50]}|{index}"`. -/
def PostCard.uniqueId (d : String → String) (c : PostCard) : String :=
  d (c.author_id ++ "|" ++ strTake c.text_preview 50 ++ "|" ++ pyStrInt c.index)

/-! ## Screen hashes (`executor.py`, `ScreenState.from_elements`/`from_xml`)

`ScreenState.from_elements` digests
`json.dumps([(e.text, e.element_type, e.identifier, str(e.bounds)) for e in parsed], sort_keys=True)`;
`sort_keys` only reorders dict keys, and the JSON encoding of this list of
string 4-tuples — with `str` injective on the parsed bounds dicts — is an
injective function of the quadruple list below, so the digest pre-image is
carried as that list.  `ScreenState.from_xml` digests
`json.dumps([(e.text, e.element_type, e.identifier) for e in elements], sort_keys=True)`
— the bounds are *not* part of the XML-path digest. -/

/-- Digest pre-image of `ScreenState.from_elements`. -/
def elemsHashInput (els : List Element) :
    List (String × String × String × Option Bounds) :=
  els.map (fun e => (e.text, e.element_type, e.identifier, e.bounds))

/-- Digest pre-image of `ScreenState.from_xml`. -/
def xmlHashInput (els : List Element) : List (String × String × String) :=
  els.map (fun e => (e.text, e.element_type, e.identifier))

/-- `screen_hash` of `ScreenState.from_elements`; `h` models the
`json.dumps`+`md5[:12]` pipeline. -/
def screenHashFromElements
    (h : List (String × String × String × Option Bounds) → String)
    (els : List Element) : String :=
  h (elemsHashInput els)

/-- `screen_hash` of `ScreenState.from_xml`. -/
def screenHashFromXml (h : List (String × String × String) → String)
    (els : List Element) : String :=
  h (xmlHashInput els)

/-! ## Element search (`Element.matches` / `ScreenState.find`) -/

/-- The optional search criteria of `Element.matches` (the explicit
value type for the `**criteria` kwargs). -/
structure Criteria where
  text : Option String := none
  text_exact : Option String := none
  typeName : Option String := none
  identifier : Option String := none
  content_desc : Option String := none
  clickable : Option Bool := none
  scrollable : Option Bool := none
deriving DecidableEq, Repr

/-- `Element.matches`: all supplied criteria must match (substring matches
case-insensitive, `text_exact` exact, booleans exact). -/
def Element.matchesCriteria (el : Element) (c : Criteria) : Bool :=
  (match c.text with
   | none => true | some v => strContains (lowerStr el.text) (lowerStr v)) &&
  (match c.text_exact with
   | none => true | some v => v = el.text) &&
  (match c.typeName with
   | none => true | some v => strContains (lowerStr el.element_type) (lowerStr v)) &&
  (match c.identifier with
   | none => true | some v => strContains (lowerStr el.identifier) (lowerStr v)) &&
  (match c.content_desc with
   | none => true | some v => strContains (lowerStr el.content_desc) (lowerStr v)) &&
  (match c.clickable with
   | none => true | some v => el.clickable = v) &&
  (match c.scrollable with
   | none => true | some v => el.scrollable = v)

/-- `ScreenState.find`: first element matching the criteria. -/
def findFirst (els : List Element) (c : Criteria) : Option Element :=
  els.find? (fun e => e.matchesCriteria c)

/-! ## Patrol data model (`patrol.py`) -/

/-- `PatrolState` enumeration. -/
inductive PatrolState where
  | init | launchingApp | findingSearch | typingQuery | viewingResults
  | enteringPost | readingPost | enteringComments | readingComments
  | returningToPost | returningToResults | scrollingResults
  | completed | stopped | error
deriving DecidableEq, Repr

/-- `PatrolConfig` dataclass with its source defaults. -/
structure PatrolConfig where
  max_posts : Nat := 10
  max_scrolls : Nat := 5
  max_time_minutes : Nat := 30
  max_consecutive_errors : Nat := 3
  comments_per_post : Nat := 10
  comment_scrolls : Nat := 2
  wait_after_search : ℚ := 2
  wait_after_click : ℚ := 1
  wait_after_scroll : ℚ := 1
  wait_after_back : ℚ := 1
  verify_actions : Bool := true
  skip_without_comments : Bool := false
  save_screenshots : Bool := false
  auto_save_report : Bool := true
deriving DecidableEq, Repr

/-- The engagement dict of `_collect_post_data` (fixed keys
likes/comments/shares). -/
structure Engagement where
  likes : Option String := none
  comments : Option String := none
  shares : Option String := none
deriving DecidableEq, Repr

/-- One collected comment (`{"text": ..., "author": ...}`). -/
structure Comment where
  text : String
  author : String
deriving DecidableEq, Repr

/-- `PostData` dataclass. -/
structure PostData where
  title : String := ""
  author : String := ""
  content : String := ""
  engagement : Engagement := {}
  comments : List Comment := []
  timestamp : String := ""
  url : String := ""
  screenshot_path : String := ""
  metadata : List (String × String) := []
deriving DecidableEq, Repr

/-- The stats dict attached by `_finalize_report`:
`{"posts_visited": …, "scrolls": …, "duration_seconds": …, "errors": …, **tracker.get_stats()}`
— the trailing merge overwrites `posts_visited`, `scrolls` and `errors`
with the tracker's values. -/
structure ReportStats where
  posts_visited : Nat
  scrolls : Nat
  duration_seconds : ℚ
  errors : Nat
  back_navigations : Nat
  start_time : ℚ
  duration : ℚ
  visited_count : Nat
  history_depth : Nat
deriving DecidableEq, Repr

/-- `PatrolReport` dataclass (finalized form). -/
structure PatrolReport where
  keyword : String
  platform : String
  start_time : ℚ
  end_time : ℚ := 0
  posts : List PostData := []
  stats : Option ReportStats := none
  errors : List String := []
deriving DecidableEq, Repr

/-- `PatrolReport.duration` property. -/
def PatrolReport.duration (r : PatrolReport) : ℚ :=
  if r.end_time ≠ 0 then r.end_time - r.start_time else 0

/-- Mutable state of `PatrolStateMachine` (the report's `errors` list,
mutated throughout the run, is carried as `reportErrors`). -/
structure PatrolMachine where
  platform : String
  config : PatrolConfig := {}
  tracker : StateTracker
  state : PatrolState := .init
  keyword : String := ""
  postsCollected : List PostData := []
  currentPost : Option PostData := none
  scrollCount : Nat := 0
  errorCount : Nat := 0
  startTime : ℚ := 0
  reportErrors : List String := []
deriving DecidableEq, Repr

/-- `PatrolStateMachine.__init__` (the platform string is lowercased, and a
fresh tracker for the platform is constructed). -/
def mkPatrolMachine (platform : String) (cfg : PatrolConfig)
    (sessionId : String) (now : ℚ) : PatrolMachine :=
  { platform := lowerStr platform, config := cfg,
    tracker := StateTracker.init platform sessionId now }

/-- `PatrolStateMachine._should_continue`: `false` exactly when a budget is
exhausted (posts, wall-clock minutes, consecutive errors) or the state is
terminal. -/
def shouldContinue (m : PatrolMachine) (now : ℚ) : Bool :=
  if m.postsCollected.length ≥ m.config.max_posts then false
  else if (now - m.startTime) / 60 ≥ (m.config.max_time_minutes : ℚ) then false
  else if m.errorCount ≥ m.config.max_consecutive_errors then false
  else if m.state = .completed ∨ m.state = .stopped ∨ m.state = .error then false
  else true

/-! ## Patrol post operations (`patrol.py`) -/

/-- Characters matched by the `[\w.]` class of `_extract_author`'s regex
(ASCII fragment of Python's `\w`, plus the dot). -/
def isWordDot (c : Char) : Bool := c.isAlphanum || c = '_' || c = '.'

/-- `re.search(r"@[\w.]+", text)`: first `@` followed by at least one
word-or-dot character, with the maximal run taken. -/
def findHandle : List Char → Option (List Char)
  | [] => none
  | c :: rest =>
    if c = '@' then
      let run := rest.takeWhile isWordDot
      if run.isEmpty then findHandle rest else some ('@' :: run)
    else findHandle rest

/-- `PatrolStateMachine._extract_author`: an `@handle` if present, else the
first 30 characters of the text, else `"unknown"`. -/
def extract_author (el : Element) : String :=
  let text := if el.text ≠ "" then el.text else el.content_desc
  match (if strContains text "@" then findHandle text.toList else none) with
  | some cs => ⟨cs⟩
  | none => if text ≠ "" then strTake text 30 else "unknown"

/-- A post dict produced by `_scan_visible_posts` from an adapter
`PostCard`. -/
structure ScannedPost where
  element : Option Element
  text : String
  author : String
  id : String
  card : PostCard
deriving DecidableEq, Repr

/-- `_scan_visible_posts`'s conversion of one `PostCard`
(`author` is `card.author_id or card.author`; `id` is the card's
`unique_id`). -/
def scanPost (d : String → String) (card : PostCard) : ScannedPost :=
  { element := card.element, text := card.text,
    author := if card.author_id ≠ "" then card.author_id else card.author,
    id := card.uniqueId d, card := card }

/-- `PatrolStateMachine._find_unvisited_post`: the first scanned post whose
id is not visited (`is_visited(item_id=post["id"])`). -/
def findUnvisitedPost (d : String → String) (tr : StateTracker)
    (posts : List ScannedPost) : Option ScannedPost :=
  posts.find? (fun p => !(tr.isVisited d (some p.id)))

/-- `PatrolStateMachine._collect_post_data` over the observed post-view
elements. -/
def collectPostData (postText postAuthor postId : String)
    (els : List Element) (timestamp : String) : PostData :=
  let all_text := (els.filter (fun e => e.text ≠ "")).map (fun e => e.text)
  let engagement := els.foldl (fun (eng : Engagement) el =>
    let text := lowerStr (if el.text ≠ "" then el.text else el.content_desc)
    if strContains text "like" || strContains text "讚" then
      { eng with likes := some el.text }
    else if strContains text "comment" || strContains text "留言" ||
        strContains text "repl" then
      { eng with comments := some el.text }
    else if strContains text "share" || strContains text "分享" then
      { eng with shares := some el.text }
    else eng) {}
  { title := strTake postText 200, author := postAuthor,
    content := String.intercalate "\n" (all_text.take 10),
    engagement := engagement, timestamp := timestamp,
    metadata := [("post_id", postId)] }

/-- The comment-collection loop of `_read_post_comments`: per scroll round,
append every element text longer than 10 characters as a comment, stop
after `comment_scrolls` rounds or once `comments_per_post` comments are
accumulated. -/
def commentScrollLoop (comments_per_post : Nat) :
    List (List Element) → List Comment → List Comment
  | [], acc => acc
  | screen :: rest, acc =>
    let fresh := (screen.filter (fun el => el.text ≠ "" && el.text.length > 10)).map
      (fun el => ({ text := el.text, author := extract_author el } : Comment))
    let acc := acc ++ fresh
    if acc.length ≥ comments_per_post then acc
    else commentScrollLoop comments_per_post rest acc

/-- Environment of one `_read_post_comments` call: the outcomes of its
device interactions (observations and the comments click). -/
structure CommentsEnv where
  lookElements : List Element := []
  clickNoChange : Bool := false
  postHash : String := ""
  pushTime : ℚ := 0
  scrollScreens : List (List Element) := []
deriving Repr

/-- `PatrolStateMachine._read_post_comments`.  The comments affordance is
looked up by the four text patterns; on a missing element or a NO_CHANGE
click the method returns without touching the history; otherwise it pushes
a `post_detail` history entry, collects comments over the scroll rounds,
stores them on the current post and pops the entry after backing out. -/
def readPostComments (m : PatrolMachine) (cenv : CommentsEnv) : PatrolMachine :=
  let m := { m with state := .enteringComments }
  let comments_el :=
    (findFirst cenv.lookElements { text := some "comment" }).orElse (fun _ =>
    (findFirst cenv.lookElements { text := some "留言" }).orElse (fun _ =>
    (findFirst cenv.lookElements { text := some "repl" }).orElse (fun _ =>
    findFirst cenv.lookElements { text := some "回覆" })))
  match comments_el with
  | none => m
  | some _ =>
    if cenv.clickNoChange then m
    else
      let m := { m with state := .readingComments }
      let m := { m with tracker :=
        m.tracker.pushHistory cenv.pushTime cenv.postHash [("state", "post_detail")] }
      let screens := (List.range m.config.comment_scrolls).map
        (fun i => cenv.scrollScreens.getD i [])
      let comments := commentScrollLoop m.config.comments_per_post screens []
      let withComments := m.currentPost.map
        (fun p => { p with comments := comments.take m.config.comments_per_post })
      let m := { m with currentPost := withComments }
      let m := { m with state := .returningToPost }
      let (_, tr) := m.tracker.popHistory
      { m with tracker := tr }

/-- `PatrolStateMachine._back_to_results`: back-navigate (with one blind
retry on NO_CHANGE — a device action with no modelled state), pop the
history entry regardless, and return to `VIEWING_RESULTS`. -/
def backToResults (m : PatrolMachine) (backNoChange : Bool) : PatrolMachine :=
  let m := { m with state := .returningToResults }
  let _ := backNoChange
  let (_, tr) := m.tracker.popHistory
  { m with tracker := tr, state := .viewingResults }

/-- Environment of one `_visit_post` call. -/
structure VisitEnv where
  resultsHash : String := ""
  pushTime : ℚ := 0
  clickNoChange : Bool := false
  markTime : ℚ := 0
  postViewElements : List Element := []
  collectTimestamp : String := ""
  commentsEnv : CommentsEnv := {}
  backNoChange : Bool := false
deriving Repr

/-- `PatrolStateMachine._visit_post`: push a `results` history entry, click
the card; on NO_CHANGE mark the post visited
(`mark_visited(item_id=post_id, title=…)`, whose `item_id` kwarg falls into
`from_post`'s `**extra`) and return early; otherwise collect the post data,
optionally read comments, mark visited
(`mark_visited(item_id=post_id, title=…, author=…)`), append to the
collected list, reset the error counter and navigate back to results. -/
def visitPost (d : String → String) (m : PatrolMachine) (post : ScannedPost)
    (env : VisitEnv) : PatrolMachine :=
  let post_id := post.id
  let m := { m with state := .enteringPost }
  let m := { m with tracker :=
    m.tracker.pushHistory env.pushTime env.resultsHash [("state", "results")] }
  if env.clickNoChange then
    { m with tracker := (m.tracker.markVisited d env.markTime
        { title := post.text, extra := [("item_id", post_id)] }).1 }
  else
    let m := { m with state := .readingPost }
    let m := { m with currentPost := some (collectPostData post.text post.author
      post_id env.postViewElements env.collectTimestamp) }
    let m := if m.config.comments_per_post > 0 then
        readPostComments m env.commentsEnv
      else m
    let cur := m.currentPost.getD {}
    let m := { m with tracker := (m.tracker.markVisited d env.markTime
      { title := cur.title, author := cur.author,
        extra := [("item_id", post_id)] }).1 }
    let m := { m with postsCollected := m.postsCollected ++ [cur], errorCount := 0 }
    backToResults m env.backNoChange

/-- `PatrolStateMachine._scroll_results`. -/
def scrollResults (m : PatrolMachine) : PatrolMachine :=
  let m := { m with state := .scrollingResults }
  let m := { m with scrollCount := m.scrollCount + 1,
                    tracker := m.tracker.recordScroll }
  { m with state := .viewingResults }

/-! ## Patrol loop (`PatrolStateMachine._patrol_loop`) -/

/-- Behaviour of one loop-body iteration: either an unhandled exception
surfacing at the body's `try`, or a scan yielding the adapter's post cards
(with the environment for a possible visit). -/
inductive IterBehavior where
  | raiseExc (msg : String)
  | scan (cards : List PostCard) (venv : VisitEnv)
deriving Repr

/-- One loop iteration's environment: the `time.time()` read by
`_should_continue` and the body's behaviour. -/
structure IterEnv where
  now : ℚ
  behavior : IterBehavior
deriving Repr

/-- The body of `_patrol_loop` (inside the per-iteration `try`), returning
the updated machine and whether the loop `break`s.  An exception increments
`error_count`; only when the budget is thereby exhausted is
`"Too many errors: …"` appended to the report errors and the loop broken. -/
def patrolBody (d : String → String) (m : PatrolMachine) :
    IterBehavior → PatrolMachine × Bool
  | .raiseExc msg =>
    let m := { m with errorCount := m.errorCount + 1 }
    if m.errorCount ≥ m.config.max_consecutive_errors then
      ({ m with reportErrors := m.reportErrors ++ ["Too many errors: " ++ msg] }, true)
    else (m, false)
  | .scan cards venv =>
    let posts := cards.map (scanPost d)
    if posts.isEmpty then
      if m.scrollCount < m.config.max_scrolls then (scrollResults m, false)
      else (m, true)
    else
      match findUnvisitedPost d m.tracker posts with
      | some p => (visitPost d m p venv, false)
      | none =>
        if m.scrollCount < m.config.max_scrolls then (scrollResults m, false)
        else (m, true)

/-- The `while _should_continue()` loop, driven by a finite iteration
environment (the flag is `true` when the loop exited by its own condition
or a `break`; `false` means the environment trace ended first). -/
def patrolLoopAux (d : String → String) :
    List IterEnv → PatrolMachine → PatrolMachine × Bool
  | [], m => (m, false)
  | e :: rest, m =>
    if shouldContinue m e.now then
      let r := patrolBody d m e.behavior
      if r.2 then (r.1, true) else patrolLoopAux d rest r.1
    else (m, true)

/-- `_patrol_loop`: run the loop, then set `COMPLETED` (which the source
does unconditionally after the `while`; on an exhausted model trace the
loop is still conceptually running, so the state is left as is). -/
def patrolLoop (d : String → String) (env : List IterEnv)
    (m : PatrolMachine) : PatrolMachine :=
  let r := patrolLoopAux d env m
  if r.2 then { r.1 with state := .completed } else r.1

/-! ## Run entry point (`PatrolStateMachine.run`) -/

/-- A phase either completes with a value or raises an exception that
escapes to `run`'s top-level `try`. -/
inductive PhaseRes (α : Type) where
  | ok (a : α)
  | exn (msg : String)
deriving Repr

/-- Outcome of `_launch_app`'s device interactions. -/
inductive LaunchOutcome where
  | raiseExc (msg : String)
  | failed (msg : String)
  | launched
deriving Repr

/-- `PatrolStateMachine._launch_app` (package-name verification is
optimistic: both verification branches return `True`). -/
def launchStep (m : PatrolMachine) (package : String) (o : LaunchOutcome) :
    PhaseRes (PatrolMachine × Bool) :=
  if package = "" then
    .ok ({ m with reportErrors := m.reportErrors ++ ["No package specified"] }, false)
  else
    let m := { m with state := .launchingApp }
    match o with
    | .raiseExc msg => .exn msg
    | .failed msg =>
      .ok ({ m with reportErrors := m.reportErrors ++ ["Launch failed: " ++ msg] }, false)
    | .launched => .ok (m, true)

/-- Outcome of `_do_search`'s device interactions: an exception, three
attempts without a search affordance, a failed keyword entry, or success
with the elements observed on the results screen. -/
inductive SearchOutcome where
  | raiseExc (msg : String)
  | notFound
  | typeFailed
  | found (resultsElements : List Element)
deriving Repr

/-- `PatrolStateMachine._do_search`: states move
`FINDING_SEARCH → TYPING_QUERY → VIEWING_RESULTS`; failures append their
error string and return `False`; on success the tracker classifies the
observed results screen. -/
def searchStep (m : PatrolMachine) (o : SearchOutcome) :
    PhaseRes (PatrolMachine × Bool) :=
  let m := { m with state := .findingSearch }
  match o with
  | .raiseExc msg => .exn msg
  | .notFound =>
    .ok ({ m with reportErrors := m.reportErrors ++ ["Could not find search"] }, false)
  | .typeFailed =>
    let m := { m with state := .typingQuery }
    .ok ({ m with reportErrors := m.reportErrors ++ ["Failed to type search query"] }, false)
  | .found els =>
    let m := { m with state := .typingQuery }
    let m := { m with state := .viewingResults }
    let m := { m with tracker := (m.tracker.detectState els).2 }
    .ok (m, true)

/-- `PatrolStateMachine._finalize_report`: stamp the end time, attach the
collected posts, build the stats dict (the `**tracker.get_stats()` merge
overwriting the machine's `posts_visited`/`scrolls`/`errors` keys), append
the optional error message, and persist the tracker session.  Returns the
report together with the saved session document. -/
def finalizeReport (m : PatrolMachine) (endTime : ℚ)
    (errorMsg : Option String) : PatrolReport × SessionData :=
  let report0 : PatrolReport :=
    { keyword := m.keyword, platform := m.platform,
      start_time := m.startTime, end_time := endTime,
      posts := m.postsCollected, errors := m.reportErrors }
  let sv := m.tracker.getStats endTime
  let stats : ReportStats :=
    { posts_visited := sv.posts_visited, scrolls := sv.scrolls,
      duration_seconds := report0.duration, errors := sv.errors,
      back_navigations := sv.back_navigations, start_time := sv.start_time,
      duration := sv.duration, visited_count := sv.visited_count,
      history_depth := sv.history_depth }
  let errors := m.reportErrors ++ (match errorMsg with
    | some e => [e]
    | none => [])
  ({ report0 with stats := some stats, errors := errors },
   m.tracker.save endTime)

/-- The environment of one `run` call: the keyword, the package override
(`""` models `None`, falling back to the machine's package), the clock
readings, and the outcomes of the three phases. -/
structure RunEnv where
  keyword : String
  package : String
  startTime : ℚ
  launch : LaunchOutcome
  search : SearchOutcome
  loopEnv : List IterEnv
  endTime : ℚ
deriving Repr

/-- `PatrolStateMachine.run`: initialize the report, then `try` launch →
search → patrol loop; a phase exception is caught, recorded as
`"Fatal error: …"` and forces the `ERROR` state; every path ends in
`_finalize_report`, so a report (with the session save) is always
returned. -/
def run (d : String → String) (m0 : PatrolMachine) (defaultPackage : String)
    (env : RunEnv) : PatrolReport × SessionData :=
  let package := if env.package ≠ "" then env.package else defaultPackage
  let m := { m0 with keyword := env.keyword, startTime := env.startTime,
                     state := .init, reportErrors := [] }
  match launchStep m package env.launch with
  | .exn msg =>
    let m := { m with reportErrors := m.reportErrors ++ ["Fatal error: " ++ msg],
                      state := .error }
    finalizeReport m env.endTime none
  | .ok (m, false) => finalizeReport m env.endTime (some "Failed to launch app")
  | .ok (m, true) =>
    match searchStep m env.search with
    | .exn msg =>
      let m := { m with reportErrors := m.reportErrors ++ ["Fatal error: " ++ msg],
                        state := .error }
      finalizeReport m env.endTime none
    | .ok (m, false) => finalizeReport m env.endTime (some "Failed to search")
    | .ok (m, true) =>
      let m := patrolLoop d env.loopEnv m
      finalizeReport m env.endTime none

/-! ## Proof helpers -/

/-- Decode a decimal digit string back to its value (left inverse of
`pyNatRepAux`, used to prove injectivity of the Python `str` model). -/
def digitsVal (l : List Char) : Nat :=
  l.foldl (fun acc c => acc * 10 + (c.toNat - 48)) 0

/-- A concrete post card extracted on the results screen (fixture for the
deduplication analysis). -/
def demoCard : PostCard :=
  { author_id := "@u", text := "hello world post",
    text_preview := "hello world post" }

/-- A freshly constructed patrol machine for platform `threads` (fixture). -/
def demoMachine : PatrolMachine := mkPatrolMachine "threads" {} "s1" 0

/-! # Theorems -/

theorem strExt {a b : String} (h : a.data = b.data) : a = b := by
  cases a; cases b; simp_all

theorem strAppend_cancel_left {c a b : String} (h : c ++ a = c ++ b) : a = b := by
  have h2 := congrArg String.data h
  simp only [String.data_append] at h2
  exact strExt (List.append_cancel_left h2)

theorem strAppend_cancel_right {c a b : String} (h : a ++ c = b ++ c) : a = b := by
  have h2 := congrArg String.data h
  simp only [String.data_append] at h2
  exact strExt (List.append_cancel_right h2)

theorem toNat_digitChar {n : Nat} (h : n < 10) :
    (Nat.digitChar n).toNat = 48 + n := by
  interval_cases n <;> decide

theorem digitChar_ge {n : Nat} (h : n < 10) : 48 ≤ (Nat.digitChar n).toNat := by
  interval_cases n <;> decide

theorem digitsVal_append (l : List Char) (c : Char) :
    digitsVal (l ++ [c]) = digitsVal l * 10 + (c.toNat - 48) := by
  simp [digitsVal, List.foldl_append]

theorem digitsVal_pyNatRepAux :
    ∀ fuel n, n < 10 ^ fuel → digitsVal (pyNatRepAux fuel n) = n := by
  intro fuel
  induction fuel with
  | zero =>
    intro n h
    simp only [pow_zero, Nat.lt_one_iff] at h
    subst h
    simp [pyNatRepAux, digitsVal]
  | succ f ih =>
    intro n h
    by_cases h10 : n < 10
    · simp [pyNatRepAux, h10, digitsVal, toNat_digitChar h10]
    · have hdiv : n / 10 < 10 ^ f := by
        rw [Nat.div_lt_iff_lt_mul (by norm_num)]
        calc n < 10 ^ (f + 1) := h
        _ = 10 ^ f * 10 := by ring
      simp only [pyNatRepAux, h10, if_false, digitsVal_append, ih (n / 10) hdiv,
        toNat_digitChar (Nat.mod_lt n (by norm_num))]
      omega

theorem pyNatRepAux_digit_ge :
    ∀ fuel n c, c ∈ pyNatRepAux fuel n → 48 ≤ c.toNat := by
  intro fuel
  induction fuel with
  | zero => intro n c h; simp [pyNatRepAux] at h
  | succ f ih =>
    intro n c h
    by_cases h10 : n < 10
    · simp only [pyNatRepAux, h10, if_true, List.mem_singleton] at h
      subst h; exact digitChar_ge h10
    · simp only [pyNatRepAux, h10, if_false, List.mem_append,
        List.mem_singleton] at h
      rcases h with h | h
      · exact ih _ _ h
      · subst h; exact digitChar_ge (Nat.mod_lt n (by norm_num))

theorem self_lt_pow_succ (n : Nat) : n < 10 ^ (n + 1) := by
  calc n < 10 ^ n := Nat.lt_pow_self (by norm_num) n
  _ ≤ 10 ^ (n + 1) := Nat.pow_le_pow_right (by norm_num) (Nat.le_succ n)

theorem pyStrNat_inj {a b : Nat} (h : pyStrNat a = pyStrNat b) : a = b := by
  have h2 : pyNatRepAux (a + 1) a = pyNatRepAux (b + 1) b :=
    congrArg String.data h
  have ha := digitsVal_pyNatRepAux (a + 1) a (self_lt_pow_succ a)
  have hb := digitsVal_pyNatRepAux (b + 1) b (self_lt_pow_succ b)
  rw [← ha, ← hb, h2]

theorem pyStrInt_inj : Function.Injective pyStrInt := by
  intro a b h
  unfold pyStrInt at h
  by_cases ha : a < 0 <;> by_cases hb : b < 0 <;> simp only [ha, hb, if_true,
    if_false, ite_true, ite_false] at h
  · have := strAppend_cancel_left h
    have := pyStrNat_inj this
    omega
  · exfalso
    have h2 := congrArg String.data h
    simp only [String.data_append] at h2
    have hmem : '-' ∈ (pyStrNat b.toNat).data := by
      rw [← h2]; simp [String.data]
    have := pyNatRepAux_digit_ge (b.toNat + 1) b.toNat '-' hmem
    simp at this
  · exfalso
    have h2 := congrArg String.data h.symm
    simp only [String.data_append] at h2
    have hmem : '-' ∈ (pyStrNat a.toNat).data := by
      rw [← h2]; simp [String.data]
    have := pyNatRepAux_digit_ge (a.toNat + 1) a.toNat '-' hmem
    simp at this
  · have := pyStrNat_inj h
    omega

theorem dictMem_cons {α β : Type} [DecidableEq α] (k a : α) (b : β)
    (t : List (α × β)) :
    dictMem k ((a, b) :: t) = (decide (a = k) || dictMem k t) := rfl

theorem dictMem_dictInsert_of_mem {α β : Type} [DecidableEq α] (k k' : α)
    (v : β) (l : List (α × β)) (h : dictMem k l = true) :
    dictMem k (dictInsert k' v l) = true := by
  induction l with
  | nil => simp [dictMem] at h
  | cons p t ih =>
    cases p with
    | mk a b =>
      rw [dictMem_cons] at h
      rcases Bool.or_eq_true_iff.mp h with h1 | h1
      · have hak : a = k := of_decide_eq_true h1
        by_cases hk : a = k'
        · subst hak; subst hk
          simp only [dictInsert, if_true]
          rw [dictMem_cons]
          simp
        · simp only [dictInsert, hk, if_false]
          rw [dictMem_cons]
          simp [hak]
      · by_cases hk : a = k'
        · subst hk
          simp only [dictInsert, if_true]
          rw [dictMem_cons]
          simp [h1]
        · simp only [dictInsert, hk, if_false]
          rw [dictMem_cons]
          simp [ih h1]

theorem dictMem_dictInsert_self {α β : Type} [DecidableEq α] (k : α) (v : β)
    (l : List (α × β)) : dictMem k (dictInsert k v l) = true := by
  induction l with
  | nil => simp [dictMem, dictInsert]
  | cons p t ih =>
    cases p with
    | mk a b =>
      by_cases hk : a = k
      · subst hk
        simp only [dictInsert, if_true]
        rw [dictMem_cons]
        simp
      · simp only [dictInsert, hk, if_false]
        rw [dictMem_cons]
        simp [ih]

theorem length_dictInsert {α β : Type} [DecidableEq α] (k : α) (v : β)
    (l : List (α × β)) :
    (dictInsert k v l).length =
      if dictMem k l then l.length else l.length + 1 := by
  induction l with
  | nil => simp [dictMem, dictInsert]
  | cons p t ih =>
    cases p with
    | mk a b =>
      by_cases hk : a = k
      · subst hk
        simp only [dictInsert, if_true, List.length_cons]
        rw [dictMem_cons]
        simp
      · simp only [dictInsert, hk, if_false, List.length_cons, ih]
        rw [dictMem_cons]
        have : decide (a = k) = false := decide_eq_false hk
        rw [this]
        simp only [Bool.false_or]
        by_cases hm : dictMem k t = true
        · simp [hm]
        · simp [hm]

theorem length_dictInsert_le {α β : Type} [DecidableEq α] (k : α) (v : β)
    (l : List (α × β)) : (dictInsert k v l).length ≤ l.length + 1 := by
  rw [length_dictInsert]
  split <;> omega

/-- The enum round trip `NavigationState(state.value) = state`. -/
theorem ofValue_value (s : NavigationState) :
    NavigationState.ofValue s.value = some s := by
  cases s <;> rfl

theorem mapM_parse_history (l : List HistoryEntry) :
    (l.map (fun e =>
      ({ state := e.state.value, screen_hash := e.screen_hash,
         timestamp := e.timestamp, data := e.data } : HistoryEntryJson))).mapM
      (fun e => (NavigationState.ofValue e.state).map (fun s =>
        ({ state := s, screen_hash := e.screen_hash,
           timestamp := e.timestamp, data := e.data } : HistoryEntry))) =
      some l := by
  induction l with
  | nil => rfl
  | cons e t ih =>
    simp only [List.map_cons, List.mapM_cons, ofValue_value, Option.map_some,
      ih, Option.pure_def, Option.bind_some, Option.bind_eq_bind]
    rfl

/-- `load` applied to the output of `save` restores platform, current
state, visited map, history and stats. -/
theorem load_save (tr tr2 : StateTracker) (now : ℚ) :
    StateTracker.load tr2 (tr.save now) =
      some { tr2 with platform := tr.platform,
                      current_state := tr.current_state,
                      visited := tr.visited,
                      history := tr.history,
                      stats := tr.stats } := by
  simp only [StateTracker.load, StateTracker.save, ofValue_value,
    mapM_parse_history, Option.bind_some, Option.pure_def,
    Option.bind_eq_bind]
  rfl

theorem popHistory_visited (tr : StateTracker) :
    (tr.popHistory).2.visited = tr.visited := by
  unfold StateTracker.popHistory
  cases tr.history.getLast? <;> rfl

theorem popHistory_posts_visited (tr : StateTracker) :
    (tr.popHistory).2.stats.posts_visited = tr.stats.posts_visited := by
  unfold StateTracker.popHistory
  cases tr.history.getLast? <;> rfl

theorem popHistory_length (tr : StateTracker) (h : tr.history ≠ []) :
    (tr.popHistory).2.history.length = tr.history.length - 1 := by
  unfold StateTracker.popHistory
  rw [List.getLast?_eq_getLast tr.history h]
  simp

theorem pushHistory_history (tr : StateTracker) (now : ℚ) (sh : String)
    (dt : List (String × String)) :
    (tr.pushHistory now sh dt).history =
      (if (tr.history ++ [(⟨tr.current_state, sh, now, dt⟩ : HistoryEntry)]).length > 50
       then (tr.history ++ [(⟨tr.current_state, sh, now, dt⟩ : HistoryEntry)]).drop
              ((tr.history ++ [(⟨tr.current_state, sh, now, dt⟩ : HistoryEntry)]).length - 50)
       else tr.history ++ [(⟨tr.current_state, sh, now, dt⟩ : HistoryEntry)]) := rfl

theorem pushHistory_length (tr : StateTracker) (now : ℚ) (sh : String)
    (dt : List (String × String)) (h : tr.history.length < 50) :
    (tr.pushHistory now sh dt).history.length = tr.history.length + 1 := by
  rw [pushHistory_history]
  have hlen : (tr.history ++
      [(⟨tr.current_state, sh, now, dt⟩ : HistoryEntry)]).length =
      tr.history.length + 1 := by simp
  rw [if_neg (by omega)]
  exact hlen

theorem pushHistory_nonempty (tr : StateTracker) (now : ℚ) (sh : String)
    (dt : List (String × String)) :
    (tr.pushHistory now sh dt).history ≠ [] := by
  rw [pushHistory_history]
  split
  · next hgt =>
    intro hemp
    rw [List.drop_eq_nil_iff] at hemp
    simp at hgt hemp
    omega
  · simp

theorem pushHistory_visited (tr : StateTracker) (now : ℚ) (sh : String)
    (dt : List (String × String)) :
    (tr.pushHistory now sh dt).visited = tr.visited := rfl

theorem visited_mem_applyOp (dg : String → String) (op : TrackerOp)
    (tr : StateTracker) (k : String) (h : dictMem k tr.visited = true) :
    dictMem k (applyOp dg tr op).visited = true := by
  cases op with
  | mark now kw =>
    simp only [applyOp, StateTracker.markVisited, StateTracker.markVisitedItem]
    exact dictMem_dictInsert_of_mem _ _ _ _ h
  | markItem item =>
    simp only [applyOp, StateTracker.markVisitedItem]
    exact dictMem_dictInsert_of_mem _ _ _ _ h
  | push now sh dt => simpa [applyOp, pushHistory_visited] using h
  | pop => simpa [applyOp, popHistory_visited] using h
  | recordScroll => simpa [applyOp, StateTracker.recordScroll] using h
  | recordError => simpa [applyOp, StateTracker.recordError] using h
  | detect els => simpa [applyOp, StateTracker.detectState] using h
  | saveOp => simpa [applyOp] using h

theorem visited_mem_applyOps (dg : String → String) (ops : List TrackerOp)
    (tr : StateTracker) (k : String) (h : dictMem k tr.visited = true) :
    dictMem k (applyOps dg tr ops).visited = true := by
  induction ops generalizing tr with
  | nil => exact h
  | cons op rest ih =>
    exact ih (applyOp dg tr op) (visited_mem_applyOp dg op tr k h)

theorem isVisited_of_mem (dg : String → String) (tr : StateTracker)
    (s : String) (hs : s ≠ "") (h : dictMem s tr.visited = true) :
    tr.isVisited dg (some s) = true := by
  show (if s ≠ "" then dictMem s tr.visited else _) = true
  rw [if_pos hs]
  exact h

/-- C9: the post id (`generate_post_id` / `VisitedItem.from_post`) is a pure
function of (title, author, index, platform): the same tuple always yields
the same id, `from_post` records exactly `generate_post_id`'s digest, and —
for an injective digest, which the truncated-MD5 scheme is assumed to be on
the inputs in play — two tuples differing in exactly one field yield
different ids. -/
theorem C9_post_id_pure_and_field_sensitive :
    (∀ (dg : String → String) (title author : String) (index : Int)
       (platform : String) (now : ℚ) (extra : List (String × String)),
       generate_post_id dg title author index platform =
         generate_post_id dg title author index platform ∧
       (VisitedItem.from_post dg now title author index platform extra).item_id =
         generate_post_id dg title author index platform) ∧
    (∀ (dg : String → String), Function.Injective dg →
       ∀ (t t' a a' : String) (i i' : Int) (p p' : String),
       (t ≠ t' → generate_post_id dg t a i p ≠ generate_post_id dg t' a i p) ∧
       (a ≠ a' → generate_post_id dg t a i p ≠ generate_post_id dg t a' i p) ∧
       (i ≠ i' → generate_post_id dg t a i p ≠ generate_post_id dg t a i' p) ∧
       (p ≠ p' → generate_post_id dg t a i p ≠ generate_post_id dg t a i p')) := by
  constructor
  · intro dg title author index platform now extra
    exact ⟨rfl, rfl⟩
  · intro dg hinj t t' a a' i i' p p'
    refine ⟨?_, ?_, ?_, ?_⟩
    · intro ht h
      apply ht
      have h1 := hinj h
      exact strAppend_cancel_right (strAppend_cancel_right
        (strAppend_cancel_right (strAppend_cancel_right
          (strAppend_cancel_right (strAppend_cancel_right h1)))))
    · intro ha h
      apply ha
      have h1 := hinj h
      exact strAppend_cancel_left (strAppend_cancel_right
        (strAppend_cancel_right (strAppend_cancel_right
          (strAppend_cancel_right h1))))
    · intro hi h
      apply hi
      have h1 := hinj h
      exact pyStrInt_inj (strAppend_cancel_left
        (strAppend_cancel_right (strAppend_cancel_right h1)))
    · intro hp h
      apply hp
      have h1 := hinj h
      exact strAppend_cancel_left h1

/-- C9 witness: the sensitivity statement instantiated at the identity
digest and concrete tuples. -/
theorem C9_witness :
    generate_post_id id "t" "a" 0 "p" = generate_post_id id "t" "a" 0 "p" ∧
    generate_post_id id "t" "a" 0 "p" ≠ generate_post_id id "t2" "a" 0 "p" := by
  constructor
  · exact (C9_post_id_pure_and_field_sensitive.1 id "t" "a" 0 "p" 0 []).1
  · exact ((C9_post_id_pure_and_field_sensitive.2 id (fun _ _ h => h)
      "t" "t2" "a" "a" 0 0 "p" "p").1 (by decide))

/-- C2: `_should_continue()` is `false` iff the post budget, time budget or
error budget is exhausted, or the patrol state is terminal; in particular
with `max_posts = 3` it is `false` as soon as 3 posts are collected,
whatever the remaining time and scroll budget. -/
theorem C2_should_continue_iff :
    (∀ (m : PatrolMachine) (now : ℚ),
      shouldContinue m now = false ↔
        (m.config.max_posts ≤ m.postsCollected.length ∨
         (m.config.max_time_minutes : ℚ) ≤ (now - m.startTime) / 60 ∨
         m.config.max_consecutive_errors ≤ m.errorCount ∨
         m.state = .completed ∨ m.state = .stopped ∨ m.state = .error)) ∧
    (∀ (m : PatrolMachine) (now : ℚ), m.config.max_posts = 3 →
      m.postsCollected.length = 3 → shouldContinue m now = false) := by
  constructor
  · intro m now
    unfold shouldContinue
    split_ifs with h1 h2 h3 h4 <;> simp_all [ge_iff_le]
  · intro m now h3 hlen
    unfold shouldContinue
    rw [if_pos]
    rw [h3, hlen]

/-- C2 witness: a machine with `max_posts = 3` and three collected posts
does not continue, with plenty of time and scroll budget left. -/
theorem C2_witness :
    shouldContinue
      { mkPatrolMachine "threads" { max_posts := 3, max_scrolls := 2 } "s" 0 with
        state := .viewingResults, postsCollected := [{}, {}, {}] } 1 = false :=
  C2_should_continue_iff.2 _ 1 rfl rfl

theorem pushHistory_stats (tr : StateTracker) (now : ℚ) (sh : String)
    (dt : List (String × String)) :
    (tr.pushHistory now sh dt).stats = tr.stats := rfl

theorem count_le_applyOp (dg : String → String) (op : TrackerOp)
    (tr : StateTracker) (h : tr.getVisitedCount ≤ tr.stats.posts_visited) :
    (applyOp dg tr op).getVisitedCount ≤
      (applyOp dg tr op).stats.posts_visited := by
  simp only [StateTracker.getVisitedCount] at h
  cases op with
  | mark now kw =>
    simp only [applyOp, StateTracker.markVisited, StateTracker.markVisitedItem,
      StateTracker.getVisitedCount]
    have := length_dictInsert_le
      (VisitedItem.from_post dg now kw.title kw.author kw.index tr.platform
        kw.extra).item_id
      (VisitedItem.from_post dg now kw.title kw.author kw.index tr.platform
        kw.extra) tr.visited
    omega
  | markItem item =>
    simp only [applyOp, StateTracker.markVisitedItem,
      StateTracker.getVisitedCount]
    have := length_dictInsert_le item.item_id item tr.visited
    omega
  | push now sh dt =>
    simpa only [applyOp, StateTracker.getVisitedCount, pushHistory_visited,
      pushHistory_stats] using h
  | pop =>
    simpa only [applyOp, StateTracker.getVisitedCount, popHistory_visited,
      popHistory_posts_visited] using h
  | recordScroll =>
    simpa only [applyOp, StateTracker.recordScroll,
      StateTracker.getVisitedCount] using h
  | recordError =>
    simpa only [applyOp, StateTracker.recordError,
      StateTracker.getVisitedCount] using h
  | detect els =>
    simpa only [applyOp, StateTracker.detectState,
      StateTracker.getVisitedCount] using h
  | saveOp => simpa only [applyOp, StateTracker.getVisitedCount] using h

/-- C10: every `mark_visited` increments the `posts_visited` stats counter,
even when the item id is already present (the entry is overwritten, not
added); marking the same item twice from a fresh tracker leaves
`get_visited_count() = 1` while `stats["posts_visited"] = 2`; and along any
sequence of session operations the counter stays an upper bound on the
visited-set size. -/
theorem C10_mark_visited_counter :
    (∀ (tr : StateTracker) (item : VisitedItem),
       (tr.markVisitedItem item).stats.posts_visited =
         tr.stats.posts_visited + 1) ∧
    (∀ (dg : String → String) (now : ℚ) (tr : StateTracker) (kw : MarkKwargs),
       ((tr.markVisited dg now kw).1).stats.posts_visited =
         tr.stats.posts_visited + 1) ∧
    (∀ (tr : StateTracker) (item : VisitedItem),
       dictMem item.item_id tr.visited = true →
       (tr.markVisitedItem item).getVisitedCount = tr.getVisitedCount) ∧
    (∀ (dg : String → String) (n1 n2 t0 : ℚ) (platform sid : String)
       (kw : MarkKwargs),
       ((((StateTracker.init platform sid t0).markVisited dg n1 kw).1.markVisited
           dg n2 kw).1.getVisitedCount = 1 ∧
        (((StateTracker.init platform sid t0).markVisited dg n1 kw).1.markVisited
           dg n2 kw).1.stats.posts_visited = 2)) ∧
    (∀ (dg : String → String) (tr : StateTracker) (ops : List TrackerOp),
       tr.getVisitedCount ≤ tr.stats.posts_visited →
       (applyOps dg tr ops).getVisitedCount ≤
         (applyOps dg tr ops).stats.posts_visited) := by
  refine ⟨fun tr item => rfl, fun dg now tr kw => rfl, ?_, ?_, ?_⟩
  · intro tr item h
    simp only [StateTracker.markVisitedItem, StateTracker.getVisitedCount,
      length_dictInsert, h, if_true]
  · intro dg n1 n2 t0 platform sid kw
    constructor
    · simp [StateTracker.markVisited, StateTracker.markVisitedItem,
        StateTracker.init, StateTracker.getVisitedCount, dictInsert,
        VisitedItem.from_post]
    · rfl
  · intro dg tr ops h
    induction ops generalizing tr with
    | nil => exact h
    | cons op rest ih =>
      exact ih (applyOp dg tr op) (count_le_applyOp dg op tr h)

/-- C10 witness: the overwrite case at a concrete tracker whose visited map
already holds the item's id. -/
theorem C10_witness :
    (({ platform := "p", session_id := "s",
        visited := [("k", ⟨"k", "", "", "", 0, []⟩)] } :
        StateTracker).markVisitedItem
      ⟨"k", "t", "", "", 0, []⟩).getVisitedCount =
    ({ platform := "p", session_id := "s",
       visited := [("k", ⟨"k", "", "", "", 0, []⟩)] } :
       StateTracker).getVisitedCount :=
  C10_mark_visited_counter.2.2.1 _ _ (by decide)

/-- C3: loading the session document written by `save()` into a tracker
with the same session id restores the visited map, the history stack
(states, screen hashes, timestamps and data) and the current state; and
once `mark_visited` has recorded an id, `is_visited` on that id stays true
across any further session operations and across a save/load round trip. -/
theorem C3_save_load_round_trip :
    (∀ (tr tr2 : StateTracker) (now : ℚ),
       StateTracker.load tr2 (tr.save now) =
         some { tr2 with platform := tr.platform,
                         current_state := tr.current_state,
                         visited := tr.visited,
                         history := tr.history,
                         stats := tr.stats }) ∧
    (∀ (dg : String → String) (now : ℚ) (tr : StateTracker) (kw : MarkKwargs)
       (ops : List TrackerOp),
       (tr.markVisited dg now kw).2 ≠ "" →
       (applyOps dg (tr.markVisited dg now kw).1 ops).isVisited dg
         (some (tr.markVisited dg now kw).2) = true) ∧
    (∀ (dg : String → String) (now now2 : ℚ) (tr tr2 : StateTracker)
       (kw : MarkKwargs) (ltr : StateTracker),
       (tr.markVisited dg now kw).2 ≠ "" →
       StateTracker.load tr2 ((tr.markVisited dg now kw).1.save now2) =
         some ltr →
       ltr.isVisited dg (some (tr.markVisited dg now kw).2) = true) := by
  refine ⟨load_save, ?_, ?_⟩
  · intro dg now tr kw ops hne
    apply isVisited_of_mem dg _ _ hne
    apply visited_mem_applyOps
    exact dictMem_dictInsert_self _ _ _
  · intro dg now now2 tr tr2 kw ltr hne hload
    rw [load_save] at hload
    have hltr := Option.some_injective _ hload.symm
    apply isVisited_of_mem dg _ _ hne
    rw [hltr]
    exact dictMem_dictInsert_self _ _ _

/-- C3 witness: a concrete mark followed by a pop and a save/load round
trip, with the identity digest, still reports the item as visited. -/
theorem C3_witness :
    (((StateTracker.init "threads" "s" 0).markVisited id 1
        { title := "Post" }).2 ≠ "") ∧
    (applyOps id ((StateTracker.init "threads" "s" 0).markVisited id 1
        { title := "Post" }).1 [.pop, .recordScroll]).isVisited id
      (some (((StateTracker.init "threads" "s" 0).markVisited id 1
        { title := "Post" }).2)) = true :=
  ⟨by decide,
   C3_save_load_round_trip.2.1 id 1 _ _ [.pop, .recordScroll] (by decide)⟩

/-- C5 counterexample: one loop iteration whose body raises, with the error
budget (3) not yet exhausted: the consecutive-error counter becomes 1, the
loop does not break, but the report's errors list stays empty — the
exception is *not* recorded as a report error. -/
theorem C5_counterexample :
    (patrolLoopAux id [⟨1, .raiseExc "boom"⟩]
      { mkPatrolMachine "threads" { max_posts := 3, max_scrolls := 2 } "s" 0 with
        state := .viewingResults }).1.reportErrors = [] ∧
    (patrolLoopAux id [⟨1, .raiseExc "boom"⟩]
      { mkPatrolMachine "threads" { max_posts := 3, max_scrolls := 2 } "s" 0 with
        state := .viewingResults }).1.errorCount = 1 := by
  have hcont : shouldContinue
      { mkPatrolMachine "threads" { max_posts := 3, max_scrolls := 2 } "s" 0 with
        state := .viewingResults } 1 = true := by
    norm_num [shouldContinue, mkPatrolMachine, StateTracker.init]
    refine ⟨by decide, by decide, by decide⟩
  simp only [patrolLoopAux, hcont, if_true, patrolBody]
  norm_num [mkPatrolMachine, StateTracker.init]

/-- C5 (amended): an unhandled exception in the loop body increments the
consecutive-error counter and is not re-raised; if the budget is not
thereby exhausted the loop simply continues with the errors list
unchanged (the swallowed exception is only logged), and only the
budget-exhausting exception is appended to the report's errors list
(as `"Too many errors: …"`) before the loop breaks. -/
theorem C5_loop_error_handling :
    ∀ (dg : String → String) (m : PatrolMachine) (msg : String),
      ((patrolBody dg m (.raiseExc msg)).1.errorCount = m.errorCount + 1) ∧
      (m.errorCount + 1 < m.config.max_consecutive_errors →
        patrolBody dg m (.raiseExc msg) =
          ({ m with errorCount := m.errorCount + 1 }, false)) ∧
      (m.config.max_consecutive_errors ≤ m.errorCount + 1 →
        patrolBody dg m (.raiseExc msg) =
          ({ m with errorCount := m.errorCount + 1,
                    reportErrors :=
                      m.reportErrors ++ ["Too many errors: " ++ msg] },
           true)) ∧
      (∀ (rest : List IterEnv) (now : ℚ),
        shouldContinue m now = true →
        m.errorCount + 1 < m.config.max_consecutive_errors →
        patrolLoopAux dg (⟨now, .raiseExc msg⟩ :: rest) m =
          patrolLoopAux dg rest { m with errorCount := m.errorCount + 1 }) := by
  intro dg m msg
  have hbody_lt : m.errorCount + 1 < m.config.max_consecutive_errors →
      patrolBody dg m (.raiseExc msg) =
        ({ m with errorCount := m.errorCount + 1 }, false) := by
    intro hlt
    simp only [patrolBody]
    rw [if_neg (by omega)]
  refine ⟨?_, hbody_lt, ?_, ?_⟩
  · simp only [patrolBody]
    split <;> rfl
  · intro hge
    simp only [patrolBody]
    rw [if_pos (by omega)]
  · intro rest now hcont hlt
    simp only [patrolLoopAux, hcont, if_true, hbody_lt hlt]
    simp

/-- C6 counterexample: a `_visit_post` whose click verifies NO_CHANGE pushes
a `results` history entry and returns without popping it — the stack depth
grows from 0 to 1 instead of staying unchanged. -/
theorem C6_counterexample :
    (visitPost id (mkPatrolMachine "threads" {} "s1" 0)
       (scanPost id { author_id := "@u", text := "hello world post",
                      text_preview := "hello world post" })
       { clickNoChange := true }).tracker.history.length = 1 ∧
    (mkPatrolMachine "threads" {} "s1" 0).tracker.history.length = 0 :=
  ⟨rfl, rfl⟩

theorem markVisited_history (dg : String → String) (now : ℚ)
    (tr : StateTracker) (kw : MarkKwargs) :
    (tr.markVisited dg now kw).1.history = tr.history := rfl

theorem readPostComments_history_length (m : PatrolMachine)
    (cenv : CommentsEnv) (h : m.tracker.history.length ≤ 49) :
    (readPostComments m cenv).tracker.history.length =
      m.tracker.history.length := by
  simp only [readPostComments]
  split
  · rfl
  · split
    · rfl
    · rw [popHistory_length _ (pushHistory_nonempty _ _ _ _),
        pushHistory_length _ _ _ _ (by omega)]
      omega

theorem visitPost_history_length_noChange (dg : String → String)
    (m : PatrolMachine) (post : ScannedPost) (env : VisitEnv)
    (hnc : env.clickNoChange = true) (h : m.tracker.history.length < 50) :
    (visitPost dg m post env).tracker.history.length =
      m.tracker.history.length + 1 := by
  simp only [visitPost, hnc, if_true, ite_true]
  rw [markVisited_history, pushHistory_length _ _ _ _ h]

theorem visitPost_history_length_success (dg : String → String)
    (m : PatrolMachine) (post : ScannedPost) (env : VisitEnv)
    (hnc : env.clickNoChange = false) (h : m.tracker.history.length ≤ 48) :
    (visitPost dg m post env).tracker.history.length =
      m.tracker.history.length := by
  simp only [visitPost, hnc, Bool.false_eq_true, if_false, ite_false,
    backToResults]
  split
  · next hc =>
    rw [popHistory_length, markVisited_history,
      readPostComments_history_length _ _
        (by rw [pushHistory_length _ _ _ _ (by omega)]; omega),
      pushHistory_length _ _ _ _ (by omega)]
    · omega
    · rw [← List.length_pos_iff_ne_nil, markVisited_history,
        readPostComments_history_length _ _
          (by rw [pushHistory_length _ _ _ _ (by omega)]; omega),
        pushHistory_length _ _ _ _ (by omega)]
      omega
  · next hc =>
    rw [popHistory_length, markVisited_history,
      pushHistory_length _ _ _ _ (by omega)]
    · omega
    · rw [← List.length_pos_iff_ne_nil, markVisited_history,
        pushHistory_length _ _ _ _ (by omega)]
      omega

/-- C6 (amended): pushes and pops are balanced on the successful paths — a
complete successful `_visit_post` (below the 50-entry cap) and a complete
`_read_post_comments` excursion leave the stack depth unchanged, and
push/pop step the depth by exactly one — but a `_visit_post` that ends with
a NO_CHANGE click returns early after its push without popping, leaving the
stack one entry deeper. -/
theorem C6_history_stack_discipline :
    (∀ (tr : StateTracker) (now : ℚ) (sh : String)
       (dt : List (String × String)), tr.history.length < 50 →
       (tr.pushHistory now sh dt).history.length = tr.history.length + 1) ∧
    (∀ tr : StateTracker, tr.history ≠ [] →
       ((tr.popHistory).2).history.length = tr.history.length - 1) ∧
    (∀ (m : PatrolMachine) (cenv : CommentsEnv),
       m.tracker.history.length ≤ 49 →
       (readPostComments m cenv).tracker.history.length =
         m.tracker.history.length) ∧
    (∀ (dg : String → String) (m : PatrolMachine) (post : ScannedPost)
       (env : VisitEnv), env.clickNoChange = false →
       m.tracker.history.length ≤ 48 →
       (visitPost dg m post env).tracker.history.length =
         m.tracker.history.length) ∧
    (∀ (dg : String → String) (m : PatrolMachine) (post : ScannedPost)
       (env : VisitEnv), env.clickNoChange = true →
       m.tracker.history.length < 50 →
       (visitPost dg m post env).tracker.history.length =
         m.tracker.history.length + 1) :=
  ⟨pushHistory_length, popHistory_length, readPostComments_history_length,
   visitPost_history_length_success, visitPost_history_length_noChange⟩

/-- C6 witness: the balanced successful path at a concrete machine — a full
visit leaves the stack depth at 0. -/
theorem C6_witness :
    (visitPost id (mkPatrolMachine "threads" {} "s1" 0)
       (scanPost id { author_id := "@u", text := "hello world post",
                      text_preview := "hello world post" })
       { clickNoChange := false }).tracker.history.length =
    (mkPatrolMachine "threads" {} "s1" 0).tracker.history.length :=
  C6_history_stack_discipline.2.2.2.1 id _ _ _ rfl (by decide)

/-- C5 witness: an exception with the budget not yet exhausted increments
the counter to 1 and lets the loop continue, errors unchanged. -/
theorem C5_witness :
    patrolBody id (mkPatrolMachine "threads" {} "s" 0) (.raiseExc "x") =
      ({ mkPatrolMachine "threads" {} "s" 0 with errorCount := 1 }, false) :=
  (C5_loop_error_handling id (mkPatrolMachine "threads" {} "s" 0) "x").2.1
    (by decide)

theorem foldl_add_if_count {α : Type} (P : α → Bool) (k : Int) :
    ∀ (l : List α) (init : Int),
      l.foldl (fun sc p => if P p then sc + k else sc) init =
        init + k * l.countP P := by
  intro l
  induction l with
  | nil => intro init; simp
  | cons a t ih =>
    intro init
    by_cases h : P a <;>
      simp only [List.foldl_cons, h, if_true, if_false, ite_true, ite_false,
        ih, List.countP_cons, h] <;> push_cast <;> ring

theorem foldl_sub_if_count {α : Type} (P : α → Bool) (k : Int) :
    ∀ (l : List α) (init : Int),
      l.foldl (fun sc p => if P p then sc - k else sc) init =
        init - k * l.countP P := by
  intro l
  induction l with
  | nil => intro init; simp
  | cons a t ih =>
    intro init
    by_cases h : P a <;>
      simp only [List.foldl_cons, h, if_true, if_false, ite_true, ite_false,
        ih, List.countP_cons, h] <;> push_cast <;> ring

/-- Closed form of `_calculate_signal_score`. -/
theorem calculate_signal_score_closed (signal : StateSignal)
    (texts types ids : List String) :
    calculate_signal_score signal texts types ids =
      max 0 (2 * ((signal.texts.countP
          (fun p => texts.any (fun t => strContains t (lowerStr p)))) : Int) +
        ((signal.element_types.countP
          (fun p => types.any (fun t => strContains t p))) : Int) +
        2 * ((signal.identifiers.countP
          (fun p => ids.any (fun i => strContains i (lowerStr p)))) : Int) -
        3 * ((signal.exclude_texts.countP
          (fun p => texts.any (fun t => strContains t (lowerStr p)))) : Int)) := by
  simp only [calculate_signal_score]
  rw [foldl_add_if_count, foldl_add_if_count, foldl_add_if_count,
    foldl_sub_if_count]
  congr 1
  ring

theorem foldl_bestStep_stable (texts types ids : List String) :
    ∀ (L : List (NavigationState × StateSignal)) (b : NavigationState)
      (v : Int),
      (∀ p ∈ L, calculate_signal_score p.2 texts types ids ≤ v) →
      L.foldl (bestStep texts types ids) (b, v) = (b, v) := by
  intro L
  induction L with
  | nil => intro b v _; rfl
  | cons a t ih =>
    intro b v h
    have ha := h a (by simp)
    simp only [List.foldl_cons, bestStep]
    rw [if_neg (by omega)]
    exact ih b v (fun p hp => h p (by simp [hp]))

theorem foldl_bestStep_bound (texts types ids : List String) :
    ∀ (L : List (NavigationState × StateSignal)) (b : NavigationState)
      (v w : Int), v ≤ w →
      (∀ p ∈ L, calculate_signal_score p.2 texts types ids ≤ w) →
      (L.foldl (bestStep texts types ids) (b, v)).2 ≤ w := by
  intro L
  induction L with
  | nil => intro b v w hv _; exact hv
  | cons a t ih =>
    intro b v w hv h
    have ha := h a (by simp)
    simp only [List.foldl_cons, bestStep]
    by_cases hgt : calculate_signal_score a.2 texts types ids > v
    · rw [if_pos (by omega)]
      exact ih a.1 _ w ha (fun p hp => h p (by simp [hp]))
    · rw [if_neg (by omega)]
      exact ih b v w hv (fun p hp => h p (by simp [hp]))

theorem bestSignal_unknown_of_all_zero (signals : List (NavigationState × StateSignal))
    (texts types ids : List String)
    (h : ∀ p ∈ signals, calculate_signal_score p.2 texts types ids = 0) :
    bestSignal signals texts types ids = (.unknown, 0) :=
  foldl_bestStep_stable texts types ids signals .unknown 0
    (fun p hp => le_of_eq (h p hp))

theorem bestSignal_first_max (texts types ids : List String)
    (L1 L2 : List (NavigationState × StateSignal)) (s : NavigationState)
    (sig : StateSignal)
    (hpos : 0 < calculate_signal_score sig texts types ids)
    (h1 : ∀ p ∈ L1, calculate_signal_score p.2 texts types ids <
      calculate_signal_score sig texts types ids)
    (h2 : ∀ p ∈ L2, calculate_signal_score p.2 texts types ids ≤
      calculate_signal_score sig texts types ids) :
    bestSignal (L1 ++ (s, sig) :: L2) texts types ids =
      (s, calculate_signal_score sig texts types ids) := by
  unfold bestSignal
  rw [List.foldl_append]
  have hb := foldl_bestStep_bound texts types ids L1 .unknown 0
    (calculate_signal_score sig texts types ids - 1) (by omega)
    (fun p hp => by have := h1 p hp; omega)
  rcases hq : L1.foldl (bestStep texts types ids)
      (NavigationState.unknown, 0) with ⟨b1, v1⟩
  rw [hq] at hb
  simp only [List.foldl_cons, bestStep]
  rw [if_pos (by simp at hb ⊢; omega)]
  exact foldl_bestStep_stable texts types ids L2 s _ h2

/-- C7: `detect_state` scores candidates as +2 per matched text, +1 per
matched element type, +2 per matched identifier, −3 per matched exclusion
(clamped at 0); the first candidate in iteration order attaining the
(positive) maximal score wins, UNKNOWN results when every candidate scores
0, the platform table is merged over the default table with platform
priority, and a "threads" tracker seeing "Top" and "Recent" with no
EditText classifies the screen as SEARCH_RESULTS. -/
theorem C7_detect_state_scoring :
    (∀ (signal : StateSignal) (texts types ids : List String),
      calculate_signal_score signal texts types ids =
        max 0 (2 * ((signal.texts.countP
            (fun p => texts.any (fun t => strContains t (lowerStr p)))) : Int) +
          ((signal.element_types.countP
            (fun p => types.any (fun t => strContains t p))) : Int) +
          2 * ((signal.identifiers.countP
            (fun p => ids.any (fun i => strContains i (lowerStr p)))) : Int) -
          3 * ((signal.exclude_texts.countP
            (fun p => texts.any (fun t => strContains t (lowerStr p)))) : Int))) ∧
    (mergedSignals "threads" =
      [ (.searchInput,
         { texts := ["Search", "搜尋"], element_types := ["EditText"] }),
        (.searchResults,
         { texts := ["Top", "Recent", "Accounts", "熱門", "最新", "帳號"],
           exclude_texts := ["Search", "搜尋"] }),
        (.postDetail,
         { texts := ["Reply", "回覆", "Like", "讚"],
           identifiers := ["thread_view", "post_detail"] }),
        (.loginWall,
         { texts := ["Log in", "Sign in", "登入", "Sign up", "註冊"] }),
        (.popup,
         { texts := ["OK", "Cancel", "Allow", "Deny", "確定", "取消", "允許", "拒絕"],
           element_types := ["AlertDialog", "Dialog"] }),
        (.comments, { texts := ["replies", "則回覆"] }),
        (.homeFeed,
         { element_types := ["RecyclerView"],
           identifiers := ["feed", "timeline"] }) ]) ∧
    (∀ (platform : String) (els : List Element),
      (∀ p ∈ mergedSignals platform,
        calculate_signal_score p.2 (elementTexts els) (elementTypes els)
          (elementIds els) = 0) →
      detectStateCore platform els = .unknown) ∧
    (∀ (platform : String) (els : List Element) (s : NavigationState)
       (sig : StateSignal) (L1 L2 : List (NavigationState × StateSignal)),
      mergedSignals platform = L1 ++ (s, sig) :: L2 →
      0 < calculate_signal_score sig (elementTexts els) (elementTypes els)
        (elementIds els) →
      (∀ p ∈ L1, calculate_signal_score p.2 (elementTexts els)
        (elementTypes els) (elementIds els) <
        calculate_signal_score sig (elementTexts els) (elementTypes els)
          (elementIds els)) →
      (∀ p ∈ L2, calculate_signal_score p.2 (elementTexts els)
        (elementTypes els) (elementIds els) ≤
        calculate_signal_score sig (elementTexts els) (elementTypes els)
          (elementIds els)) →
      detectStateCore platform els = s) ∧
    (∀ (tr : StateTracker) (els : List Element),
      tr.detectState els = (detectStateCore tr.platform els,
        { tr with current_state := detectStateCore tr.platform els })) ∧
    (detectStateCore "threads" [{ text := "Top" }, { text := "Recent" }] =
      .searchResults ∧
     detectStateCore "threads" [{ text := "Top" }, { text := "Recent" }] ≠
      .searchInput ∧
     detectStateCore "threads" [{ text := "Top" }, { text := "Recent" }] ≠
      .unknown) := by
  refine ⟨calculate_signal_score_closed, by rfl, ?_, ?_,
    fun tr els => rfl, by decide, by decide, by decide⟩
  · intro platform els h
    unfold detectStateCore
    rw [bestSignal_unknown_of_all_zero _ _ _ _ h]
  · intro platform els s sig L1 L2 hsplit hpos h1 h2
    unfold detectStateCore
    rw [hsplit, bestSignal_first_max _ _ _ _ _ _ _ hpos h1 h2]

/-- C7 witness: an empty screen scores 0 on every candidate and is
classified UNKNOWN. -/
theorem C7_witness :
    detectStateCore "threads" ([] : List Element) = .unknown :=
  C7_detect_state_scoring.2.2.1 "threads" [] (by decide)

theorem list_set_value_inj {α : Type} (l : List α) (i : Nat) (a b : α)
    (hi : i < l.length) (h : l.set i a = l.set i b) : a = b := by
  have h2 := congrArg (fun t => t[i]?) h
  simp only [List.getElem?_set_eq_of_lt _ hi] at h2
  simpa using h2

/-- C8 counterexample: two element lists that differ only in one element's
bounds produce *identical* digest pre-images on the XML construction path
(`from_xml` hashes only text/type/identifier), so every digest — including
the real `json.dumps` + MD5 pipeline — yields the same screen hash for
both, while the same two lists do differ in the element-dict path's
pre-image. -/
theorem C8_counterexample :
    xmlHashInput [{ text := "A", element_type := "T", identifier := "i", bounds := some ⟨1, 2, 3, 4⟩ }] =
      xmlHashInput [{ text := "A", element_type := "T", identifier := "i", bounds := some ⟨9, 9, 9, 9⟩ }] ∧
    screenHashFromXml (fun l => String.intercalate "," (l.map Prod.fst))
      [{ text := "A", element_type := "T", identifier := "i", bounds := some ⟨1, 2, 3, 4⟩ }] =
      screenHashFromXml (fun l => String.intercalate "," (l.map Prod.fst))
        [{ text := "A", element_type := "T", identifier := "i", bounds := some ⟨9, 9, 9, 9⟩ }] ∧
    ({ text := "A", element_type := "T", identifier := "i", bounds := some ⟨1, 2, 3, 4⟩ } : Element) ≠
      { text := "A", element_type := "T", identifier := "i", bounds := some ⟨9, 9, 9, 9⟩ } ∧
    elemsHashInput [{ text := "A", element_type := "T", identifier := "i", bounds := some ⟨1, 2, 3, 4⟩ }] ≠
      elemsHashInput [{ text := "A", element_type := "T", identifier := "i", bounds := some ⟨9, 9, 9, 9⟩ }] :=
  ⟨rfl, rfl, by decide, by decide⟩

/-- C8 (amended): identical digest pre-images give identical hashes on both
paths; in the element-dict path (`from_elements`) changing any one
element's text, type, identifier or bounds changes the digest pre-image and
hence the hash (for an injective digest); in the XML path (`from_xml`) this
holds for text, type and identifier only — bounds are excluded from that
digest, so a bounds-only change never changes the XML-path hash. -/
theorem C8_screen_hash_sensitivity :
    (∀ (h : List (String × String × String × Option Bounds) → String)
       (els els' : List Element), elemsHashInput els = elemsHashInput els' →
       screenHashFromElements h els = screenHashFromElements h els') ∧
    (∀ (h : List (String × String × String) → String)
       (els els' : List Element), xmlHashInput els = xmlHashInput els' →
       screenHashFromXml h els = screenHashFromXml h els') ∧
    (∀ (h : List (String × String × String × Option Bounds) → String),
       Function.Injective h →
       ∀ (els : List Element) (i : Nat) (e e' : Element), i < els.length →
       (e.text ≠ e'.text ∨ e.element_type ≠ e'.element_type ∨
        e.identifier ≠ e'.identifier ∨ e.bounds ≠ e'.bounds) →
       screenHashFromElements h (els.set i e) ≠
         screenHashFromElements h (els.set i e')) ∧
    (∀ (h : List (String × String × String) → String),
       Function.Injective h →
       ∀ (els : List Element) (i : Nat) (e e' : Element), i < els.length →
       (e.text ≠ e'.text ∨ e.element_type ≠ e'.element_type ∨
        e.identifier ≠ e'.identifier) →
       screenHashFromXml h (els.set i e) ≠ screenHashFromXml h (els.set i e')) ∧
    (∀ (h : List (String × String × String) → String) (els : List Element)
       (i : Nat) (e e' : Element), e.text = e'.text →
       e.element_type = e'.element_type → e.identifier = e'.identifier →
       screenHashFromXml h (els.set i e) = screenHashFromXml h (els.set i e')) := by
  refine ⟨?_, ?_, ?_, ?_, ?_⟩
  · intro h els els' heq
    unfold screenHashFromElements
    exact congrArg h heq
  · intro h els els' heq
    unfold screenHashFromXml
    exact congrArg h heq
  · intro h hinj els i e e' hi hne heq
    have h1 := hinj heq
    unfold elemsHashInput at h1
    rw [List.map_set, List.map_set] at h1
    have h2 := list_set_value_inj _ i _ _ (by simpa using hi) h1
    simp only [Prod.mk.injEq] at h2
    tauto
  · intro h hinj els i e e' hi hne heq
    have h1 := hinj heq
    unfold xmlHashInput at h1
    rw [List.map_set, List.map_set] at h1
    have h2 := list_set_value_inj _ i _ _ (by simpa using hi) h1
    simp only [Prod.mk.injEq] at h2
    tauto
  · intro h els i e e' ht hty hid
    unfold screenHashFromXml xmlHashInput
    rw [List.map_set, List.map_set, ht, hty, hid]

/-- C8 witness: the bounds-insensitivity of the XML path at a concrete
element list and digest. -/
theorem C8_witness :
    screenHashFromXml (fun _ => "d")
      (([{}] : List Element).set 0 { text := "A", bounds := some ⟨1, 2, 3, 4⟩ }) =
      screenHashFromXml (fun _ => "d")
        (([{}] : List Element).set 0 { text := "A", bounds := some ⟨9, 9, 9, 9⟩ }) :=
  C8_screen_hash_sensitivity.2.2.2.2 (fun _ => "d") [{}] 0 _ _ rfl rfl rfl

theorem isVisited_eq_false_of_not_mem (dg : String → String)
    (tr : StateTracker) (s : String) (hs : s ≠ "")
    (h : dictMem s tr.visited = false) :
    tr.isVisited dg (some s) = false := by
  show (if s ≠ "" then dictMem s tr.visited else _) = false
  rw [if_pos hs]
  exact h

/-- C1: the deduplication key round trip is broken.  `_visit_post` calls
`mark_visited(item_id=post_id, …)`, but `mark_visited` has no `item_id`
parameter: the kwarg is swallowed by `from_post`'s `**extra` and stored in
`data`, while the visited map is keyed by the digest of
`title|author|index|platform` — a different pre-image than the card's
`unique_id` digest of `author_id|text_preview[:50]|index`.  Evaluating the
code at a concrete card (for any injective digest producing a non-empty id,
as truncated MD5 does): after `_visit_post` — on both the NO_CHANGE and the
SUCCESS click paths — `is_visited` on the card's `unique_id` is `false`,
`_find_unvisited_post` returns the very same card again, and the recorded
key differs from the card's `unique_id`. -/
theorem C1_dedup_key_mismatch :
    ∀ dg : String → String, Function.Injective dg →
      dg "@u|hello world post|0" ≠ "" →
      ((visitPost dg demoMachine (scanPost dg demoCard)
          { clickNoChange := true }).tracker.isVisited dg
        (some (demoCard.uniqueId dg)) = false) ∧
      (findUnvisitedPost dg (visitPost dg demoMachine (scanPost dg demoCard)
          { clickNoChange := true }).tracker [scanPost dg demoCard] =
        some (scanPost dg demoCard)) ∧
      ((visitPost dg demoMachine (scanPost dg demoCard)
          { clickNoChange := true }).tracker.visited.map Prod.fst =
        [dg "hello world post||0|threads"]) ∧
      (dg "hello world post||0|threads" ≠ demoCard.uniqueId dg) ∧
      (findUnvisitedPost dg (visitPost dg demoMachine (scanPost dg demoCard)
          { clickNoChange := false }).tracker [scanPost dg demoCard] =
        some (scanPost dg demoCard)) := by
  intro dg hinj hne
  have hAB : ("hello world post||0|threads" : String) ≠ "@u|hello world post|0" := by
    decide
  have hABdg : dg "hello world post||0|threads" ≠ dg "@u|hello world post|0" :=
    fun h => hAB (hinj h)
  have hAB2 : ("hello world post|@u|0|threads" : String) ≠ "@u|hello world post|0" := by
    decide
  have hABdg2 : dg "hello world post|@u|0|threads" ≠ dg "@u|hello world post|0" :=
    fun h => hAB2 (hinj h)
  have hvis : (visitPost dg demoMachine (scanPost dg demoCard)
      { clickNoChange := true }).tracker.visited =
      [(dg "hello world post||0|threads",
        VisitedItem.from_post dg 0 "hello world post" "" 0 "threads"
          [("item_id", dg "@u|hello world post|0")])] := rfl
  have hvis2 : (visitPost dg demoMachine (scanPost dg demoCard)
      { clickNoChange := false }).tracker.visited =
      [(dg "hello world post|@u|0|threads",
        VisitedItem.from_post dg 0 "hello world post" "@u" 0 "threads"
          [("item_id", dg "@u|hello world post|0")])] := rfl
  have hmem : dictMem (dg "@u|hello world post|0")
      (visitPost dg demoMachine (scanPost dg demoCard)
        { clickNoChange := true }).tracker.visited = false := by
    rw [hvis]
    simp only [dictMem, List.any_cons, List.any_nil, Bool.or_false]
    exact decide_eq_false (fun h => hABdg h)
  have hmem2 : dictMem (dg "@u|hello world post|0")
      (visitPost dg demoMachine (scanPost dg demoCard)
        { clickNoChange := false }).tracker.visited = false := by
    rw [hvis2]
    simp only [dictMem, List.any_cons, List.any_nil, Bool.or_false]
    exact decide_eq_false (fun h => hABdg2 h)
  have h1 : (visitPost dg demoMachine (scanPost dg demoCard)
      { clickNoChange := true }).tracker.isVisited dg
      (some (demoCard.uniqueId dg)) = false :=
    isVisited_eq_false_of_not_mem dg _ _ hne hmem
  have h1' : (visitPost dg demoMachine (scanPost dg demoCard)
      { clickNoChange := true }).tracker.isVisited dg
      (some ((scanPost dg demoCard).id)) = false := h1
  have hpred : (!((visitPost dg demoMachine (scanPost dg demoCard)
      { clickNoChange := true }).tracker.isVisited dg
      (some ((scanPost dg demoCard).id)))) = true := by rw [h1']; rfl
  have h2 : (visitPost dg demoMachine (scanPost dg demoCard)
      { clickNoChange := false }).tracker.isVisited dg
      (some ((scanPost dg demoCard).id)) = false :=
    isVisited_eq_false_of_not_mem dg _ _ hne hmem2
  have hpred2 : (!((visitPost dg demoMachine (scanPost dg demoCard)
      { clickNoChange := false }).tracker.isVisited dg
      (some ((scanPost dg demoCard).id)))) = true := by rw [h2]; rfl
  refine ⟨h1, ?_, by rw [hvis]; rfl, fun h => hABdg h, ?_⟩
  · unfold findUnvisitedPost
    exact List.find?_cons_of_pos [] hpred
  · unfold findUnvisitedPost
    exact List.find?_cons_of_pos [] hpred2

/-- C1 witness: with the identity digest, the card visited via a NO_CHANGE
click is offered again by `_find_unvisited_post`. -/
theorem C1_witness :
    findUnvisitedPost id
      (visitPost id demoMachine (scanPost id demoCard)
        { clickNoChange := true }).tracker [scanPost id demoCard] =
      some (scanPost id demoCard) :=
  (C1_dedup_key_mismatch id (fun _ _ h => h) (by decide)).2.1

/-- C4: `run(keyword)` never propagates an exception and always ends in
`_finalize_report`: every environment yields a finalized
report-and-session pair; finalization stamps the end time, attaches the
collected posts and the stats, persists the tracker session and carries
the accumulated errors (plus the optional failure message); a phase
exception (in launch or search) is caught, appended as `"Fatal error: …"`,
forces the `ERROR` state and still preserves the posts collected so far;
and on the normal path the report's machine is exactly the patrol loop's
final machine. -/
theorem C4_run_always_finalizes :
    (∀ (dg : String → String) (m0 : PatrolMachine) (dp : String)
       (env : RunEnv),
       ∃ (mf : PatrolMachine) (errMsg : Option String),
         run dg m0 dp env = finalizeReport mf env.endTime errMsg) ∧
    (∀ (mf : PatrolMachine) (endT : ℚ) (msg : Option String),
       (finalizeReport mf endT msg).1.end_time = endT ∧
       (finalizeReport mf endT msg).1.posts = mf.postsCollected ∧
       (finalizeReport mf endT msg).1.stats.isSome = true ∧
       (finalizeReport mf endT msg).2 = mf.tracker.save endT ∧
       (finalizeReport mf endT msg).1.errors =
         mf.reportErrors ++ msg.toList) ∧
    (∀ (dg : String → String) (m0 : PatrolMachine) (dp : String)
       (env : RunEnv) (msg : String),
       env.launch = .raiseExc msg →
       (if env.package ≠ "" then env.package else dp) ≠ "" →
       ∃ mf, run dg m0 dp env = finalizeReport mf env.endTime none ∧
         mf.state = .error ∧ ("Fatal error: " ++ msg) ∈ mf.reportErrors ∧
         mf.postsCollected = m0.postsCollected) ∧
    (∀ (dg : String → String) (m0 : PatrolMachine) (dp : String)
       (env : RunEnv) (msg : String),
       env.launch = .launched → env.search = .raiseExc msg →
       (if env.package ≠ "" then env.package else dp) ≠ "" →
       ∃ mf, run dg m0 dp env = finalizeReport mf env.endTime none ∧
         mf.state = .error ∧ ("Fatal error: " ++ msg) ∈ mf.reportErrors ∧
         mf.postsCollected = m0.postsCollected) ∧
    (∀ (dg : String → String) (m0 : PatrolMachine) (dp : String)
       (env : RunEnv) (els : List Element),
       env.launch = .launched → env.search = .found els →
       (if env.package ≠ "" then env.package else dp) ≠ "" →
       run dg m0 dp env = finalizeReport
         (patrolLoop dg env.loopEnv
           { m0 with keyword := env.keyword, startTime := env.startTime,
                     reportErrors := [], state := .viewingResults,
                     tracker := ((m0.tracker).detectState els).2 })
         env.endTime none) := by
  refine ⟨?_, ?_, ?_, ?_, ?_⟩
  · intro dg m0 dp env
    simp only [run, launchStep, searchStep]
    by_cases hp : (if env.package ≠ "" then env.package else dp) = ""
    · rw [if_pos hp]
      exact ⟨_, _, rfl⟩
    · rw [if_neg hp]
      cases env.launch with
      | raiseExc msg => exact ⟨_, _, rfl⟩
      | failed msg => exact ⟨_, _, rfl⟩
      | launched =>
        cases env.search with
        | raiseExc msg => exact ⟨_, _, rfl⟩
        | notFound => exact ⟨_, _, rfl⟩
        | typeFailed => exact ⟨_, _, rfl⟩
        | found els => exact ⟨_, _, rfl⟩
  · intro mf endT msg
    refine ⟨rfl, rfl, rfl, rfl, ?_⟩
    cases msg <;> rfl
  · intro dg m0 dp env msg hl hp
    simp only [run, launchStep, searchStep, hl]
    rw [if_neg hp]
    exact ⟨_, rfl, rfl, by simp, rfl⟩
  · intro dg m0 dp env msg hl hs hp
    simp only [run, launchStep, searchStep, hl, hs]
    rw [if_neg hp]
    exact ⟨_, rfl, rfl, by simp, rfl⟩
  · intro dg m0 dp env els hl hs hp
    simp only [run, launchStep, searchStep, hl, hs]
    rw [if_neg hp]

/-- C4 witness: a concrete normal-path run is exactly the finalization of
the patrol loop's final machine. -/
theorem C4_witness :
    run id demoMachine "com.instagram.barcelona"
        { keyword := "k", package := "", startTime := 0,
          launch := .launched, search := .found [],
          loopEnv := [], endTime := 2 } =
      finalizeReport
        (patrolLoop id []
          { demoMachine with
            keyword := "k", startTime := 0, reportErrors := [],
            state := .viewingResults,
            tracker := ((demoMachine.tracker).detectState []).2 })
        2 none :=
  C4_run_always_finalizes.2.2.2.2 id demoMachine "com.instagram.barcelona"
    { keyword := "k", package := "", startTime := 0,
      launch := .launched, search := .found [],
      loopEnv := [], endTime := 2 } [] rfl rfl (by decide)

end MobileAgent
